import Mathlib

set_option maxHeartbeats 1000000
set_option autoImplicit false

/- Shallow embedding of the luma.gl Transform class
   (src/modules/core/src/lib/transform.js).

   Modelling conventions:
   * JS objects used as string-keyed dictionaries are association lists in
     insertion order; a stored value of none models a property whose value is
     undefined (a key can be present with an undefined value).
   * Fatal paths (failed assert calls and TypeError crashes on undefined)
     are modelled by Option-valued operations returning none.
   * GPU collaborator objects (Buffer, Texture2D, Framebuffer,
     TransformFeedback) are records tagged with a unique allocation id drawn
     from a nextId counter in the state; object identity is the id.
   * Numeric element counts are Nat (the isFinite assert cannot fail here).
   * The two-element resource arrays of the class are GenPair records indexed
     by the current-generation index, which the code keeps in 0 or 1. -/

/-- JS object as an association list keyed by property name. -/
abbrev Tbl (α : Type) := List (String × α)

/-- Property read: first entry with the given key. -/
def tget {α : Type} : Tbl α → String → Option α
  | [], _ => none
  | p :: rest, k => if p.1 = k then some p.2 else tget rest k

/-- Property write: replace the first entry with the key, else append. -/
def tset {α : Type} : Tbl α → String → α → Tbl α
  | [], k, v => [(k, v)]
  | p :: rest, k, v => if p.1 = k then (k, v) :: rest else p :: tset rest k v

/-- Object.assign target source: copy every entry of source into target. -/
def tassign {α : Type} (t : Tbl α) (s : Tbl α) : Tbl α :=
  s.foldl (fun acc p => tset acc p.1 p.2) t

/-- JS property access on a table whose values may be undefined: an absent
key and a key stored as undefined both read back as undefined. -/
def jget {α : Type} (m : Tbl (Option α)) (k : String) : Option α :=
  match tget m k with
  | some v => v
  | none => none

/-- WebGL enumeration constants used by the source file. -/
def glNEAREST : Nat := 0x2600

def glCLAMP_TO_EDGE : Nat := 0x812F

def glPOINTS : Nat := 0x0000

/-- Buffer element-layout descriptor (the accessor of a luma.gl Buffer). -/
structure Accessor where
  size : Nat
  deriving DecidableEq

/-- GPU buffer handle: opaque linear storage with creation metadata.
Metadata fields are Option since a JS Buffer can be constructed from
opts whose fields are undefined. -/
structure Buffer where
  id : Nat
  byteLength : Option Nat
  usage : Option Nat
  accessor : Option Accessor
  contents : List Nat
  deriving DecidableEq

/-- A value stored in a source/feedback buffer table: either a raw Buffer or
a wrapper object carrying a buffer plus extra binding params. -/
inductive BufValue where
  | buf (b : Buffer)
  | wrapped (b : Buffer) (byteOffset : Nat)
  deriving DecidableEq

/-- The byteLength property of a table value (undefined on a wrapper). -/
def BufValue.byteLengthF : BufValue → Option Nat
  | .buf b => b.byteLength
  | .wrapped _ _ => none

/-- The usage property of a table value (undefined on a wrapper). -/
def BufValue.usageF : BufValue → Option Nat
  | .buf b => b.usage
  | .wrapped _ _ => none

/-- The accessor property of a table value (undefined on a wrapper). -/
def BufValue.accessorF : BufValue → Option Accessor
  | .buf b => b.accessor
  | .wrapped _ _ => none

/-- The instanceof Buffer test. -/
def BufValue.isBuffer : BufValue → Bool
  | .buf _ => true
  | .wrapped _ _ => false

/-- 2D texture handle. -/
structure Texture where
  id : Nat
  width : Nat
  height : Nat
  format : Nat
  minFilter : Nat
  magFilter : Nat
  wrapS : Nat
  wrapT : Nat
  flipY : Bool
  deriving DecidableEq

/-- Framebuffer (render target) wrapping one color-attachment texture.
The pixels field models what readPixelsToArray would return. -/
structure Framebuffer where
  id : Nat
  width : Nat
  height : Nat
  colorAttachment : Option Texture
  pixels : List Nat
  deriving DecidableEq

/-- TransformFeedback capture object binding feedback buffers. -/
structure TransformFeedbackObj where
  id : Nat
  buffers : Tbl (Option BufValue)
  deriving DecidableEq

/-- A resource tracked in this.resources for later disposal. -/
inductive Resource where
  | bufferRes (b : Buffer)
  | textureRes (t : Texture)
  deriving DecidableEq

/-- Identity of a tracked resource. -/
def Resource.rid : Resource → Nat
  | .bufferRes b => b.id
  | .textureRes t => t.id

/-- The two-element arrays the class keeps for per-generation resources. -/
structure GenPair (α : Type) where
  g0 : α
  g1 : α
  deriving DecidableEq

/-- Array read at index 0 or 1 (the code only ever uses these indices). -/
def GenPair.get {α : Type} (p : GenPair α) (i : Nat) : α :=
  if i = 0 then p.g0 else p.g1

/-- Array write at index 0 or 1. -/
def GenPair.set {α : Type} (p : GenPair α) (i : Nat) (v : α) : GenPair α :=
  if i = 0 then { p with g0 := v } else { p with g1 := v }

/-- The targetTexture prop: a Texture2D object or a reference source-texture
name. -/
inductive TexOrRef where
  | texVal (t : Texture)
  | refName (n : String)
  deriving DecidableEq

/-- Modelled from the spec: the outputs of the collaborating shader-text
utility (updateForTextures in transform-shader-utils, outside this file).
Only the derived target texture type matters for the modelled behavior. -/
structure ShaderOut where
  targetTextureType : String
  deriving DecidableEq

/-- Constructor / update props recognized by the modelled code paths. -/
structure TransformProps where
  vs : Bool := true
  varyings : Option (List String) := none
  targetTextureVarying : Option String := none
  sourceBuffers : Tbl (Option BufValue) := []
  feedbackBuffers : Option (Tbl (Option BufValue)) := none
  destinationBuffers : Option (Tbl (Option BufValue)) := none
  feedbackMap : Option (List (String × String)) := none
  sourceDestinationMap : Option (List (String × String)) := none
  sourceTextures : Option (Tbl (Option Texture)) := none
  targetTexture : Option TexOrRef := none
  swapTexture : Option String := none
  elementCount : Option Nat := none
  deriving DecidableEq

/-- Options of run. -/
structure RunOpts where
  clearRenderTarget : Option Bool := none
  deriving DecidableEq

/-- Observable routing effects of one run call (what is passed to the
draw: discard flag, bound framebuffer, viewport, and whether the color
contents were cleared first). -/
structure RunEffects where
  discard : Bool
  framebuffer : Option Framebuffer
  viewport : Option (List Nat)
  cleared : Bool
  deriving DecidableEq

/-- The instance state of a Transform object. -/
structure TransformState where
  elementCount : Nat
  currentIndex : Nat
  sourceBuffers : GenPair (Tbl (Option BufValue))
  sourceTextures : GenPair (Tbl (Option Texture))
  feedbackBuffers : GenPair (Tbl (Option BufValue))
  feedbackMap : Option (List (String × String))
  targetTextures : GenPair (Option Texture)
  transformFeedbacks : GenPair (Option TransformFeedbackObj)
  framebuffers : GenPair (Option Framebuffer)
  resources : Tbl Resource
  destroyed : List Nat
  createdLog : List (String × Resource)
  elementIDBuffer : Option Buffer
  targetRefTexName : Option String
  targetTextureVarying : Option String
  renderingToTexture : Bool
  hasSourceTextures : Bool
  swapTexture : Option String
  varyingsArray : Option (List String)
  targetTextureType : String
  nextId : Nat
  deriving DecidableEq

/-- The freshly constructed state before _initialize runs. -/
def initialState : TransformState where
  elementCount := 0
  currentIndex := 0
  sourceBuffers := ⟨[], []⟩
  sourceTextures := ⟨[], []⟩
  feedbackBuffers := ⟨[], []⟩
  feedbackMap := none
  targetTextures := ⟨none, none⟩
  transformFeedbacks := ⟨none, none⟩
  framebuffers := ⟨none, none⟩
  resources := []
  destroyed := []
  createdLog := []
  elementIDBuffer := none
  targetRefTexName := none
  targetTextureVarying := none
  renderingToTexture := false
  hasSourceTextures := false
  swapTexture := none
  varyingsArray := none
  targetTextureType := ""
  nextId := 0

namespace Transform

/-- Buffer creation opts as passed to new Buffer. -/
structure BufferOpts where
  byteLength : Option Nat := none
  usage : Option Nat := none
  accessor : Option Accessor := none
  data : Option (List Nat) := none
  deriving DecidableEq

/-- _createNewBuffer: create a buffer, destroying a previously tracked
resource of the same name before installing the replacement. The
createdLog field records every creation for the development's statements
(it has no counterpart in the JS state). -/
def createNewBuffer (s : TransformState) (name : String) (opts : BufferOpts) :
    TransformState × Buffer :=
  let b : Buffer :=
    { id := s.nextId
      byteLength := opts.byteLength
      usage := opts.usage
      accessor := opts.accessor
      contents := opts.data.getD [] }
  let s := { s with nextId := s.nextId + 1 }
  let s :=
    match tget s.resources name with
    | some r => { s with destroyed := s.destroyed ++ [r.rid] }
    | none => s
  let s :=
    { s with
      resources := tset s.resources name (Resource.bufferRes b)
      createdLog := s.createdLog ++ [(name, Resource.bufferRes b)] }
  (s, b)

/-- The feedback-buffer and feedback-map props after resolving the
deprecated aliases (destinationBuffers, sourceDestinationMap). -/
def deducedFeedback (p : TransformProps) : Option (Tbl (Option BufValue)) :=
  p.feedbackBuffers <|> p.destinationBuffers

/-- The feedback-map prop after resolving the deprecated alias. -/
def deducedMap (p : TransformProps) : Option (List (String × String)) :=
  p.feedbackMap <|> p.sourceDestinationMap

/-- _deduceBufferProps: resolve deprecated aliases and assert every explicit
feedback entry is a Buffer or wraps one (an entry stored as undefined fails:
instanceof is false and reading .buffer of undefined throws). -/
def deduceBufferProps (p : TransformProps) :
    Option (Tbl (Option BufValue) × Option (Tbl (Option BufValue)) ×
      Option (List (String × String))) :=
  let fb := deducedFeedback p
  let fm := deducedMap p
  if (fb.getD []).all (fun q => q.2.isSome) then some (p.sourceBuffers, fb, fm)
  else none

/-- One iteration of the _createFeedbackBuffers loop for the pair
(sourceName, feedbackBufferName): when the destination is not the texture
output name and the call's explicit feedbackBuffers prop does not supply it,
create a buffer copying byteLength, usage and accessor of the current
generation's source buffer with that name (destructuring an absent source
throws). -/
def cfbStep (fbProps : Option (Tbl (Option BufValue))) (s : TransformState)
    (a b : String) : Option TransformState :=
  if some b ≠ s.targetTextureVarying ∧
      (fbProps.isNone ∨ (jget (fbProps.getD []) b).isNone) then
    match jget (s.sourceBuffers.get s.currentIndex) a with
    | none => none
    | some v =>
      let p := createNewBuffer s b
        { byteLength := v.byteLengthF, usage := v.usageF, accessor := v.accessorF }
      some
        { p.1 with
          feedbackBuffers := p.1.feedbackBuffers.set p.1.currentIndex
            (tset (p.1.feedbackBuffers.get p.1.currentIndex) b
              (some (BufValue.buf p.2))) }
  else some s

/-- The _createFeedbackBuffers loop over the feedback map in key order. -/
def cfbLoop (fbProps : Option (Tbl (Option BufValue))) :
    List (String × String) → TransformState → Option TransformState
  | [], s => some s
  | (a, b) :: rest, s =>
    match cfbStep fbProps s a b with
    | none => none
    | some s' => cfbLoop fbProps rest s'

/-- _createFeedbackBuffers: auto create missing feedback buffers; requires a
feedback map. -/
def createFeedbackBuffers (s : TransformState)
    (fbProps : Option (Tbl (Option BufValue))) : Option TransformState :=
  match s.feedbackMap with
  | none => some s
  | some fm => cfbLoop fbProps fm s

/-- The _setupSwapBuffers loop: for every (srcName, dstName) pair whose
destination is not the texture output name, point the other generation's
source entry at the current feedback buffer and the other generation's
feedback entry at the current source buffer, asserting the latter is a
genuine Buffer. Only the two next-generation tables are written; reads are
from the current-generation tables. -/
def swapLoop (srcCur fbCur : Tbl (Option BufValue)) (ttv : Option String) :
    List (String × String) → Tbl (Option BufValue) → Tbl (Option BufValue) →
      Option (Tbl (Option BufValue) × Tbl (Option BufValue))
  | [], sN, fN => some (sN, fN)
  | (a, b) :: rest, sN, fN =>
    if some b = ttv then swapLoop srcCur fbCur ttv rest sN fN
    else
      let sN' := tset sN a (jget fbCur b)
      let fN' := tset fN b (jget srcCur a)
      match jget srcCur a with
      | some (BufValue.buf _) => swapLoop srcCur fbCur ttv rest sN' fN'
      | _ => none

/-- _setupSwapBuffers: requires a feedback map; first copies the current
generation's source and feedback tables into the other generation as a
baseline, then runs the aliasing loop. -/
def setupSwapBuffers (s : TransformState) : Option TransformState :=
  match s.feedbackMap with
  | none => some s
  | some fm =>
    let cur := s.currentIndex
    let next := (cur + 1) % 2
    let sN0 := tassign (s.sourceBuffers.get next) (s.sourceBuffers.get cur)
    let fN0 := tassign (s.feedbackBuffers.get next) (s.feedbackBuffers.get cur)
    match swapLoop (s.sourceBuffers.get cur) (s.feedbackBuffers.get cur)
        s.targetTextureVarying fm sN0 fN0 with
    | none => none
    | some r =>
      some
        { s with
          sourceBuffers := s.sourceBuffers.set next r.1
          feedbackBuffers := s.feedbackBuffers.set next r.2 }

/-- _setupBuffers: persist a supplied feedback map, merge supplied source
and feedback buffers into the current generation, auto create feedback
buffers, then wire the swap tables. -/
def setupBuffers (s : TransformState) (props : TransformProps) :
    Option TransformState :=
  match deduceBufferProps props with
  | none => none
  | some d =>
    let srcB := d.1
    let fbB := d.2.1
    let fbM := d.2.2
    let s :=
      match fbM with
      | some m => { s with feedbackMap := some m }
      | none => s
    let cur := s.currentIndex
    let s :=
      { s with
        sourceBuffers := s.sourceBuffers.set cur
          (tassign (s.sourceBuffers.get cur) srcB) }
    let s :=
      { s with
        feedbackBuffers := s.feedbackBuffers.set cur
          (tassign (s.feedbackBuffers.get cur) (fbB.getD [])) }
    match createFeedbackBuffers s fbB with
    | none => none
    | some s => setupSwapBuffers s

/-- _setupTransformFeedback: create or update the capture object of the
current generation when the feedback table is non-empty, and of the other
generation as well when a feedback map is configured. -/
def setupTransformFeedback (s : TransformState) : TransformState :=
  let cur := s.currentIndex
  if (s.feedbackBuffers.get cur).isEmpty then s
  else
    let s :=
      match s.transformFeedbacks.get cur with
      | some tf =>
        { s with
          transformFeedbacks := s.transformFeedbacks.set cur
            (some { tf with buffers := s.feedbackBuffers.get cur }) }
      | none =>
        { s with
          transformFeedbacks := s.transformFeedbacks.set cur
            (some { id := s.nextId, buffers := s.feedbackBuffers.get cur })
          nextId := s.nextId + 1 }
    match s.feedbackMap with
    | none => s
    | some _ =>
      let next := (s.currentIndex + 1) % 2
      match s.transformFeedbacks.get next with
      | some tf =>
        { s with
          transformFeedbacks := s.transformFeedbacks.set next
            (some { tf with buffers := s.feedbackBuffers.get next }) }
      | none =>
        { s with
          transformFeedbacks := s.transformFeedbacks.set next
            (some { id := s.nextId, buffers := s.feedbackBuffers.get next })
          nextId := s.nextId + 1 }

/-- _buildTargetTexture: a Texture2D prop is used directly (clearing the
reference name); a reference name resolves against the generation's source
textures (asserting it exists) and is cloned with nearest filtering,
clamp-to-edge wrapping and upload flip disabled (cloneTextureFrom is the
external collaborator: the clone inherits the reference dimensions and
format). The clone is tracked under target-texture-index, destroying a
previously tracked one first. -/
def buildTargetTexture (s : TransformState) (tor : TexOrRef) (index : Nat) :
    Option (TransformState × Texture) :=
  match tor with
  | .texVal t => some ({ s with targetRefTexName := none }, t)
  | .refName name =>
    match jget (s.sourceTextures.get index) name with
    | none => none
    | some refTexture =>
      let s := { s with targetRefTexName := some name }
      let texture : Texture :=
        { id := s.nextId
          width := refTexture.width
          height := refTexture.height
          format := refTexture.format
          minFilter := glNEAREST
          magFilter := glNEAREST
          wrapS := glCLAMP_TO_EDGE
          wrapT := glCLAMP_TO_EDGE
          flipY := false }
      let s := { s with nextId := s.nextId + 1 }
      let resourceName := "target-texture-" ++ toString index
      let s :=
        match tget s.resources resourceName with
        | some r => { s with destroyed := s.destroyed ++ [r.rid] }
        | none => s
      let s :=
        { s with
          resources := tset s.resources resourceName (Resource.textureRes texture)
          createdLog := s.createdLog ++ [(resourceName, Resource.textureRes texture)] }
      some (s, texture)

/-- _setupSwapTextures: when a swap texture name is configured and the kernel
renders to a texture, copy the current source-texture table into the other
generation, point the other generation's entry under the swap name at the
current target texture, and reuse the current source texture under that name
as the other generation's target. -/
def setupSwapTextures (s : TransformState) : TransformState :=
  match s.swapTexture, s.targetTextureVarying with
  | some swapName, some _ =>
    let cur := s.currentIndex
    let next := (cur + 1) % 2
    let tblN := tassign (s.sourceTextures.get next) (s.sourceTextures.get cur)
    let tblN := tset tblN swapName (s.targetTextures.get cur)
    let s := { s with sourceTextures := s.sourceTextures.set next tblN }
    { s with
      targetTextures := s.targetTextures.set next
        (jget (s.sourceTextures.get cur) swapName) }
  | _, _ => s

/-- _setupFramebuffer: update an existing framebuffer to the texture and its
size, or create a new one (destructuring width/height of an undefined
texture throws). -/
def setupFramebufferOne (s : TransformState) (fbOpt : Option Framebuffer)
    (texOpt : Option Texture) : Option (TransformState × Framebuffer) :=
  match texOpt with
  | none => none
  | some tex =>
    match fbOpt with
    | some fb =>
      some (s, { fb with width := tex.width, height := tex.height,
                         colorAttachment := some tex })
    | none =>
      some
        ({ s with nextId := s.nextId + 1 },
          { id := s.nextId, width := tex.width, height := tex.height,
            colorAttachment := some tex, pixels := [] })

/-- _setupFramebuffers: only when rendering to a texture; wires the current
generation's framebuffer, and the other generation's too when a swap texture
name is configured. -/
def setupFramebuffers (s : TransformState) : Option TransformState :=
  if s.renderingToTexture = false then some s
  else
    let cur := s.currentIndex
    match setupFramebufferOne s (s.framebuffers.get cur) (s.targetTextures.get cur) with
    | none => none
    | some p =>
      let s := { p.1 with framebuffers := p.1.framebuffers.set cur (some p.2) }
      match s.swapTexture with
      | none => some s
      | some _ =>
        let next := (cur + 1) % 2
        match setupFramebufferOne s (s.framebuffers.get next) (s.targetTextures.get next) with
        | none => none
        | some q =>
          some { q.1 with framebuffers := q.1.framebuffers.set next (some q.2) }

/-- The resolution of the local _targetTexture variable in _setupTextures:
when rendering to a texture and no texture prop is supplied, a previously
recorded reference texture name is re-used when the call's source-texture
prop resupplies it (reading a property of an absent source-texture prop
object throws). Returns the crash as the outer none. -/
def resolveTargetTexture (s : TransformState) (props : TransformProps) :
    Option (Option TexOrRef) :=
  match s.targetTextureVarying with
  | none => some props.targetTexture
  | some _ =>
    match props.targetTexture with
    | some t => some (some t)
    | none =>
      match s.targetRefTexName with
      | none => some none
      | some r =>
        match props.sourceTextures with
        | none => none
        | some stl =>
          if (jget stl r).isSome then some (some (TexOrRef.refName r))
          else some none

/-- The source-texture merge steps of _setupTextures: merge the supplied
source textures into the current generation and recompute
hasSourceTextures from generation 0. -/
def setupTexturesAssign (s : TransformState) (props : TransformProps) :
    TransformState :=
  let cur := s.currentIndex
  let s :=
    { s with
      sourceTextures := s.sourceTextures.set cur
        (tassign (s.sourceTextures.get cur) (props.sourceTextures.getD [])) }
  { s with hasSourceTextures := !s.sourceTextures.g0.isEmpty }

/-- The target-texture build step of _setupTextures: when rendering to a
texture and a target texture was resolved, build it into the current
generation. -/
def setupTexturesBuild (s : TransformState) (tt : Option TexOrRef) :
    Option TransformState :=
  match s.targetTextureVarying, tt with
  | some _, some x =>
    match buildTargetTexture s x s.currentIndex with
    | none => none
    | some p =>
      some
        { p.1 with
          targetTextures := p.1.targetTextures.set p.1.currentIndex (some p.2) }
  | _, _ => some s

/-- The tail of _setupTextures: wire the swap textures, then set up the
framebuffers when a target texture was resolved. -/
def setupTexturesFinish (s : TransformState) (tt : Option TexOrRef) :
    Option TransformState :=
  let s := setupSwapTextures s
  match tt with
  | some _ => setupFramebuffers s
  | none => some s

/-- The body of _setupTextures after the swap-texture name persist: assert
supplied source textures are Texture2D handles, merge them into the current
generation, build the target texture when rendering to a texture, wire the
swap textures, and set up framebuffers when a target texture was resolved. -/
def setupTexturesCore (s : TransformState) (props : TransformProps) :
    Option TransformState :=
  if !(props.sourceTextures.getD []).all (fun q => q.2.isSome) then none
  else
    let s := setupTexturesAssign s props
    match resolveTargetTexture s props with
    | none => none
    | some tt =>
      match setupTexturesBuild s tt with
      | none => none
      | some s => setupTexturesFinish s tt

/-- _setupTextures: persist a supplied swap-texture name, then run the body. -/
def setupTextures (s : TransformState) (props : TransformProps) :
    Option TransformState :=
  let s :=
    match props.swapTexture with
    | some n => { s with swapTexture := some n }
    | none => s
  setupTexturesCore s props

/-- _updateElementIDBuffer: only when any input or the output is
texture-backed; fills a float array with 0..elementCount-1 and creates the
tracked elementIDBuffer or updates its data in place. -/
def updateElementIDBuffer (s : TransformState) (elementCount : Nat) :
    TransformState :=
  if s.hasSourceTextures = false ∧ s.targetTextureVarying = none then s
  else
    let elementIds := List.range elementCount
    match s.elementIDBuffer with
    | none =>
      let p := createNewBuffer s "elementIDBuffer"
        { data := some elementIds, accessor := some { size := 1 } }
      { p.1 with elementIDBuffer := some p.2 }
    | some b =>
      { s with elementIDBuffer := some { b with contents := elementIds } }

/-- _setElementCount: on a supplied element count (always finite here, so
the isFinite assert cannot fail), rebuild the element-id buffer only when
the count grows past the stored count, then store the count. -/
def setElementCount (s : TransformState) (props : TransformProps) :
    TransformState :=
  match props.elementCount with
  | none => s
  | some ec =>
    if s.elementCount = ec then s
    else
      let s := if s.elementCount < ec then updateElementIDBuffer s ec else s
      { s with elementCount := ec }

/-- update: re-apply a subset of the configuration. -/
def update (s : TransformState) (props : TransformProps) :
    Option TransformState :=
  let s := setElementCount s props
  match setupBuffers s props with
  | none => none
  | some s =>
    let s := setupTransformFeedback s
    setupTextures s props

/-- The constructor followed by _initialize (assert props.vs; derive the
varyings from the feedback map when no array is supplied; record the texture
output name; set up buffers and textures; build the model through the
external shader utilities, then capture objects and the element count). -/
def construct (props : TransformProps) (sh : ShaderOut) :
    Option TransformState :=
  if props.vs = false then none
  else
    let varyingsArray :=
      match props.feedbackMap, props.varyings with
      | some fm, none => some (fm.map (fun q => q.2))
      | _, v => v
    let s := { initialState with varyingsArray := varyingsArray }
    let s :=
      match props.targetTextureVarying with
      | some ttv =>
        { s with targetTextureVarying := some ttv, renderingToTexture := true }
      | none => s
    match setupBuffers s props with
    | none => none
    | some s =>
      match setupTextures s props with
      | none => none
      | some s =>
        let s := { s with targetTextureType := sh.targetTextureType }
        let s := setupTransformFeedback s
        some (setElementCount s props)

/-- swap: asserts a feedback map or a swap texture name is configured and
flips the current generation index modulo 2. -/
def swap (s : TransformState) : Option TransformState :=
  if s.feedbackMap.isSome || s.swapTexture.isSome then
    some { s with currentIndex := (s.currentIndex + 1) % 2 }
  else none

/-- getBuffer: null name reads as null; a bound wrapper yields its
underlying buffer; an unbound name yields null with no error. -/
def getBuffer (s : TransformState) (varyingName : Option String) :
    Option Buffer :=
  match varyingName with
  | none => none
  | some n =>
    match jget (s.feedbackBuffers.get s.currentIndex) n with
    | some (BufValue.buf b) => some b
    | some (BufValue.wrapped b _) => some b
    | none => none

/-- getFramebuffer: the current generation's framebuffer. -/
def getFramebuffer (s : TransformState) : Option Framebuffer :=
  s.framebuffers.get s.currentIndex

/-- Modelled from the spec: the collaborating shadertools typeToChannelCount
(the channel count implied by the target texture's format type). -/
def typeToChannelCount (t : String) : Nat :=
  if t = "float" then 1
  else if t = "vec2" then 2
  else if t = "vec3" then 3
  else if t = "vec4" then 4
  else 0

/-- The packing loop of getData: per 4-element pixel, keep the first
channelCount elements. -/
def packPixels (cc : Nat) : List Nat → List Nat
  | [] => []
  | x :: rest => List.take cc (x :: rest) ++ packPixels cc (List.drop 3 rest)
  termination_by l => l.length
  decreasing_by
    simp only [List.length_drop, List.length_cons]
    omega

/-- getData: a name bound to a feedback buffer reads that buffer back;
otherwise the name must be absent or the texture output name (assert), and
the current generation's framebuffer pixels are read back (reading an
absent framebuffer throws), optionally repacked down to the channel count
of the target texture type. -/
def getData (s : TransformState) (varyingName : Option String)
    (packed : Bool) : Option (List Nat) :=
  match getBuffer s varyingName with
  | some b => some b.contents
  | none =>
    if varyingName.isSome ∧ varyingName ≠ s.targetTextureVarying then none
    else
      match s.framebuffers.get s.currentIndex with
      | none => none
      | some fb =>
        if packed = false then some fb.pixels
        else some (packPixels (typeToChannelCount s.targetTextureType) fb.pixels)

/-- The texture parameter overrides forced on source textures before a run. -/
def srcTexOverrides (t : Texture) : Texture :=
  { t with minFilter := glNEAREST, magFilter := glNEAREST,
           wrapS := glCLAMP_TO_EDGE, wrapT := glCLAMP_TO_EDGE }

/-- _setSourceTextureParameters: force nearest filtering and clamp wrapping
on every current-generation source texture (calling setParameters on an
entry stored as undefined throws). -/
def setSourceTextureParameters (s : TransformState) : Option TransformState :=
  let cur := s.currentIndex
  let tbl := s.sourceTextures.get cur
  if tbl.all (fun q => q.2.isSome) then
    some
      { s with
        sourceTextures := s.sourceTextures.set cur
          (tbl.map (fun q => (q.1, q.2.map srcTexOverrides))) }
  else none

/-- run: assemble inputs (forcing source texture parameters when any input
or the output is texture-backed), then route: when rendering to a texture
the current framebuffer must exist (assert), discard is off, the viewport
covers the full target, and the color contents are cleared unless
suppressed; otherwise rasterization is discarded and no framebuffer is
bound. The draw itself is the external model.transform collaborator; its
routing arguments are returned as RunEffects. -/
def run (s : TransformState) (opts : RunOpts) :
    Option (TransformState × RunEffects) :=
  let inputsState :=
    if s.hasSourceTextures || s.targetTextureVarying.isSome then
      setSourceTextureParameters s
    else some s
  match inputsState with
  | none => none
  | some s =>
    let clearRT := opts.clearRenderTarget.getD true
    if s.renderingToTexture then
      match s.framebuffers.get s.currentIndex with
      | none => none
      | some fb =>
        some (s,
          { discard := false
            framebuffer := some fb
            viewport := some [0, 0, fb.width, fb.height]
            cleared := clearRT })
    else
      some (s,
        { discard := true, framebuffer := none, viewport := none,
          cleared := false })

end Transform

/-- A public operation on a live instance (the state-mutating ones). -/
inductive TOp where
  | upd (p : TransformProps)
  | runOp (o : RunOpts)
  | swp

/-- Apply one public operation. -/
def applyOp (s : TransformState) : TOp → Option TransformState
  | .upd p => Transform.update s p
  | .runOp o => (Transform.run s o).map Prod.fst
  | .swp => Transform.swap s

/-- Apply a sequence of public operations. -/
def applyOps : TransformState → List TOp → Option TransformState
  | s, [] => some s
  | s, op :: rest =>
    match applyOp s op with
    | none => none
    | some s' => applyOps s' rest

/-! Concrete fixtures used by witnesses and counterexamples. -/

/-- A concrete source buffer. -/
def bufA : Buffer :=
  { id := 1000, byteLength := some 16, usage := some 35044,
    accessor := some { size := 4 }, contents := [1, 2, 3, 4] }

/-- A second concrete buffer with a different identity and layout. -/
def bufB : Buffer :=
  { id := 1001, byteLength := some 8, usage := some 35048,
    accessor := some { size := 2 }, contents := [5, 6] }

/-- A third concrete buffer. -/
def bufC : Buffer :=
  { id := 1002, byteLength := some 16, usage := some 35044,
    accessor := some { size := 4 }, contents := [7, 8, 9, 10] }

/-- A concrete 2x2 source texture. -/
def texT : Texture :=
  { id := 2000, width := 2, height := 2, format := 6408, minFilter := 9729,
    magFilter := 9729, wrapS := 10497, wrapT := 10497, flipY := false }

/-- The buffer value _createNewBuffer builds from the given opts at the
state's allocation counter. -/
def mkNewBuffer (s : TransformState) (opts : Transform.BufferOpts) : Buffer :=
  { id := s.nextId, byteLength := opts.byteLength, usage := opts.usage,
    accessor := opts.accessor, contents := opts.data.getD [] }

/-- A state with a feedback map configured, for the swap witnesses. -/
def c7state : TransformState :=
  { initialState with feedbackMap := some [("a", "b")] }

/-- A state whose current feedback table binds a wrapper and an
undefined-valued key, for the getBuffer witness. -/
def c10state : TransformState :=
  { initialState with
    feedbackBuffers := ⟨[("w", some (BufValue.wrapped bufA 0)), ("u", none)], []⟩ }

/-- The state after the persist and merge steps of _setupBuffers, before
auto creation and swap wiring. -/
def setupBuffersPre (s : TransformState) (props : TransformProps) : TransformState :=
  let s :=
    match Transform.deducedMap props with
    | some m => { s with feedbackMap := some m }
    | none => s
  let cur := s.currentIndex
  let s :=
    { s with
      sourceBuffers := s.sourceBuffers.set cur
        (tassign (s.sourceBuffers.get cur) props.sourceBuffers) }
  { s with
    feedbackBuffers := s.feedbackBuffers.set cur
      (tassign (s.feedbackBuffers.get cur) ((Transform.deducedFeedback props).getD [])) }

/-- The feedback map in force after a configuration call merging the given
props (a truthy supplied map is persisted, otherwise the stored map stays). -/
def effectiveFeedbackMap (s : TransformState) (props : TransformProps) :
    Option (List (String × String)) :=
  match Transform.deducedMap props with
  | some m => some m
  | none => s.feedbackMap

/-- The texture _buildTargetTexture clones from a reference texture. -/
def mkCloneTexture (s : TransformState) (refTexture : Texture) : Texture :=
  { id := s.nextId
    width := refTexture.width
    height := refTexture.height
    format := refTexture.format
    minFilter := glNEAREST
    magFilter := glNEAREST
    wrapS := glCLAMP_TO_EDGE
    wrapT := glCLAMP_TO_EDGE
    flipY := false }

def c1State : TransformState :=
  { initialState with sourceBuffers := ⟨[("a", some (BufValue.buf bufA))], []⟩ }

def c1Props : TransformProps := { feedbackMap := some [("a", "b")] }

def c1Result : TransformState :=
  (Transform.update c1State c1Props).getD initialState

def c1ceState : TransformState :=
  { initialState with
    sourceBuffers :=
      ⟨[("a", some (BufValue.buf bufA)), ("c", some (BufValue.buf bufC))], []⟩ }

def c1ceProps : TransformProps :=
  { feedbackMap := some [("a", "b"), ("c", "b")] }

def c1ceResult : TransformState :=
  (Transform.update c1ceState c1ceProps).getD initialState

def c2State : TransformState :=
  { initialState with sourceBuffers := ⟨[("a", some (BufValue.buf bufA))], []⟩ }

def c2Props : TransformProps := { feedbackMap := some [("a", "b")] }

def c2Result : TransformState :=
  (Transform.update c2State c2Props).getD initialState

def c2SupState : TransformState :=
  { initialState with
    feedbackMap := some [("a", "b")]
    sourceBuffers := ⟨[("a", some (BufValue.buf bufA))], []⟩ }

def c2SupFbp : Tbl (Option BufValue) := [("b", some (BufValue.buf bufB))]

def c2SupResult : TransformState :=
  (Transform.createFeedbackBuffers c2SupState (some c2SupFbp)).getD initialState

def c2ceState : TransformState :=
  { initialState with
    feedbackMap := some [("a", "b")]
    sourceBuffers := ⟨[("a", some (BufValue.buf bufA))], []⟩
    feedbackBuffers := ⟨[("b", some (BufValue.buf bufB))], []⟩ }

def c2ceProps : TransformProps := {}

def c2ceResult : TransformState :=
  (Transform.update c2ceState c2ceProps).getD initialState

def c2ceNewBuf : Buffer :=
  { id := 0, byteLength := some 16, usage := some 35044,
    accessor := some { size := 4 }, contents := [] }

def c4Eib : Buffer :=
  { id := 50, byteLength := none, usage := none, accessor := some { size := 1 },
    contents := List.range 10 }

def c4State : TransformState :=
  { initialState with
    hasSourceTextures := true
    sourceTextures := ⟨[("t", some texT)], []⟩
    elementCount := 10
    elementIDBuffer := some c4Eib }

def c4GrowResult : TransformState :=
  (Transform.update c4State { elementCount := some 12 }).getD initialState

def c4ShrinkResult : TransformState :=
  (Transform.update c4State { elementCount := some 2 }).getD initialState

def c4ceMid : TransformState :=
  (Transform.update c4State { elementCount := some 3 }).getD initialState

def c4ceFinal : TransformState :=
  (Transform.update c4ceMid { elementCount := some 5 }).getD initialState

/-- A state configured with a swap-texture name, a texture output and a
bound source texture, for the texture-swap witness. -/
def c3State : TransformState :=
  { initialState with
    sourceTextures := ⟨[("t", some texT)], []⟩
    targetTextureVarying := some "out"
    renderingToTexture := true
    hasSourceTextures := true
    swapTexture := some "t"
    targetTextureType := "vec4" }

/-- An update that rebuilds the target texture from the reference name. -/
def c3Props : TransformProps :=
  { targetTexture := some (TexOrRef.refName "t") }

/-- The state after the texture-swap configuration call. -/
def c3Result : TransformState :=
  (Transform.update c3State c3Props).getD initialState

/-- The state and effects of one run on the configured instance. -/
def c3RunPair : TransformState × RunEffects :=
  (Transform.run c3Result {}).getD
    (initialState,
      { discard := true, framebuffer := none, viewport := none,
        cleared := false })

/-- The state after run and swap. -/
def c3Swapped : TransformState :=
  (Transform.swap c3RunPair.1).getD initialState

/-- A state whose registry already tracks a buffer under the element-id
name. -/
def c9BufState : TransformState :=
  { initialState with
    resources := [("elementIDBuffer", Resource.bufferRes bufA)] }

/-- Creation opts for the replacement buffer. -/
def c9Opts : Transform.BufferOpts :=
  { data := some [0, 1, 2], accessor := some { size := 1 } }

/-- A state whose registry already tracks a texture under the
target-texture name of generation 0. -/
def c9TexState : TransformState :=
  { initialState with
    sourceTextures := ⟨[("t", some texT)], []⟩
    resources := [("target-texture-0", Resource.textureRes texT)] }

/-- The result of rebuilding the target texture over the tracked one. -/
def c9TexPair : TransformState × Texture :=
  (Transform.buildTargetTexture c9TexState (TexOrRef.refName "t") 0).getD
    (initialState, texT)

/-- A concrete render target with an 8-channel pixel readback. -/
def c6Fb : Framebuffer :=
  { id := 3000, width := 2, height := 1, colorAttachment := some texT,
    pixels := [1, 2, 3, 4, 5, 6, 7, 8] }

/-- A state binding a feedback buffer, a texture output name and a current
render target with a two-channel target type. -/
def c6State : TransformState :=
  { initialState with
    feedbackBuffers := ⟨[("a", some (BufValue.buf bufA))], []⟩
    framebuffers := ⟨some c6Fb, none⟩
    targetTextureVarying := some "out"
    renderingToTexture := true
    targetTextureType := "vec2" }

/-- A concrete current-generation render target for the run witness. -/
def c5Fb : Framebuffer :=
  { id := 4000, width := 3, height := 2, colorAttachment := some texT,
    pixels := [] }

/-- A texture-routed state with a current render target. -/
def c5TexState : TransformState :=
  { initialState with
    targetTextureVarying := some "out"
    renderingToTexture := true
    framebuffers := ⟨some c5Fb, none⟩ }

/-- The state and effects of one run on the texture-routed instance. -/
def c5TexPair : TransformState × RunEffects :=
  (Transform.run c5TexState {}).getD
    (initialState,
      { discard := true, framebuffer := none, viewport := none,
        cleared := false })

/-- A texture-routed state missing its current render target. -/
def c5MissState : TransformState :=
  { initialState with
    targetTextureVarying := some "out"
    renderingToTexture := true }

/-- The state and effects of one run on a buffer-only instance. -/
def c5NoTexPair : TransformState × RunEffects :=
  (Transform.run initialState {}).getD
    (c5TexState,
      { discard := false, framebuffer := some c5Fb, viewport := none,
        cleared := true })

/-- Constructor props of a buffer-only instance with a feedback map. -/
def c5CProps : TransformProps :=
  { feedbackMap := some [("a", "b")]
    sourceBuffers := [("a", some (BufValue.buf bufA))] }

/-- The shader-utility output for the buffer-only instance. -/
def c5Sh : ShaderOut := { targetTextureType := "" }

/-- The constructed buffer-only instance. -/
def c5S0 : TransformState :=
  (Transform.construct c5CProps c5Sh).getD c5TexState

/-- A run, a swap and an update on the buffer-only instance. -/
def c5Ops : List TOp := [TOp.runOp {}, TOp.swp, TOp.upd {}]

/-- The buffer-only instance after the operation sequence. -/
def c5SFinal : TransformState :=
  (applyOps c5S0 c5Ops).getD c5TexState

/-! Basic lemmas about the JS object model. -/

theorem tget_tset_self {α : Type} (m : Tbl α) (k : String) (v : α) :
    tget (tset m k v) k = some v := by
  induction m with
  | nil => simp [tset, tget]
  | cons p rest ih =>
    by_cases h : p.1 = k
    · simp [tset, h, tget]
    · simp [tset, h, tget, ih]

theorem tget_tset_ne {α : Type} (m : Tbl α) (k k' : String) (v : α)
    (h : k' ≠ k) : tget (tset m k v) k' = tget m k' := by
  have hk : ¬(k = k') := fun e => h e.symm
  induction m with
  | nil => simp [tset, tget, hk]
  | cons p rest ih =>
    by_cases hp : p.1 = k
    · simp [tset, hp, tget, hk]
    · simp only [tset, hp, if_false, tget]
      by_cases hp' : p.1 = k'
      · simp [hp']
      · simp [hp', ih]

theorem jget_tset_self {α : Type} (m : Tbl (Option α)) (k : String)
    (v : Option α) : jget (tset m k v) k = v := by
  simp [jget, tget_tset_self]

theorem jget_tset_ne {α : Type} (m : Tbl (Option α)) (k k' : String)
    (v : Option α) (h : k' ≠ k) : jget (tset m k v) k' = jget m k' := by
  simp [jget, tget_tset_ne m k k' v h]

theorem GenPair.get_set_same {α : Type} (p : GenPair α) (i : Nat) (v : α) :
    (p.set i v).get i = v := by
  by_cases h : i = 0 <;> simp [GenPair.get, GenPair.set, h]

theorem GenPair.get_set_other {α : Type} (p : GenPair α) (i j : Nat) (v : α)
    (hi : i < 2) (hj : j < 2) (hne : j ≠ i) : (p.set i v).get j = p.get j := by
  interval_cases i <;> interval_cases j <;> simp_all [GenPair.get, GenPair.set]

theorem next_ne_cur (i : Nat) (h : i < 2) : (i + 1) % 2 ≠ i := by
  interval_cases i <;> decide

/-! Claim theorems. -/

/-- C7: with a feedback map or a swap texture configured, swap flips the
current-generation index modulo 2 and mutates nothing else; applied once
the index differs from the original value, and applied twice it returns to
it. -/
theorem c7_swap_flips_index_only (s : TransformState)
    (hpre : s.feedbackMap.isSome ∨ s.swapTexture.isSome)
    (hidx : s.currentIndex < 2) :
    ∃ s', Transform.swap s = some s' ∧
      s'.currentIndex = (s.currentIndex + 1) % 2 ∧
      s'.currentIndex ≠ s.currentIndex ∧
      s'.sourceBuffers = s.sourceBuffers ∧
      s'.sourceTextures = s.sourceTextures ∧
      s'.feedbackBuffers = s.feedbackBuffers ∧
      s'.feedbackMap = s.feedbackMap ∧
      s'.targetTextures = s.targetTextures ∧
      s'.transformFeedbacks = s.transformFeedbacks ∧
      s'.framebuffers = s.framebuffers ∧
      s'.resources = s.resources ∧
      s'.destroyed = s.destroyed ∧
      s'.createdLog = s.createdLog ∧
      s'.elementIDBuffer = s.elementIDBuffer ∧
      s'.targetRefTexName = s.targetRefTexName ∧
      s'.targetTextureVarying = s.targetTextureVarying ∧
      s'.renderingToTexture = s.renderingToTexture ∧
      s'.hasSourceTextures = s.hasSourceTextures ∧
      s'.swapTexture = s.swapTexture ∧
      s'.varyingsArray = s.varyingsArray ∧
      s'.targetTextureType = s.targetTextureType ∧
      s'.elementCount = s.elementCount ∧
      ∃ s'', Transform.swap s' = some s'' ∧ s''.currentIndex = s.currentIndex := by
  have hb : (s.feedbackMap.isSome || s.swapTexture.isSome) = true := by
    rcases hpre with h | h <;> simp [h]
  have h2 : s.currentIndex = 0 ∨ s.currentIndex = 1 := by omega
  refine ⟨{ s with currentIndex := (s.currentIndex + 1) % 2 }, ?_, rfl, ?_,
    rfl, rfl, rfl, rfl, rfl, rfl, rfl, rfl, rfl, rfl, rfl, rfl, rfl, rfl,
    rfl, rfl, rfl, rfl, rfl, ?_⟩
  · simp [Transform.swap, hb]
  · rcases h2 with h2 | h2 <;> simp [h2]
  · refine ⟨{ s with currentIndex := ((s.currentIndex + 1) % 2 + 1) % 2 }, ?_, ?_⟩
    · simp [Transform.swap, hb]
    · rcases h2 with h2 | h2 <;> simp [h2]

/-- Witness for C7 at a concrete state with a feedback map. -/
theorem c7_swap_flips_index_only_witness :
    (c7state.feedbackMap.isSome ∨ c7state.swapTexture.isSome) ∧
    c7state.currentIndex < 2 ∧
    ∃ s', Transform.swap c7state = some s' ∧ s'.currentIndex ≠ c7state.currentIndex := by
  refine ⟨Or.inl (by decide), by decide, ?_⟩
  obtain ⟨s', h1, _, h3, _⟩ :=
    c7_swap_flips_index_only c7state (Or.inl (by decide)) (by decide)
  exact ⟨s', h1, h3⟩

/-- C8: calling swap with neither a feedback map nor a swap-texture name
configured fails the assert (modelled as none), so no advanced state is
produced: the call is fatal, not a silent no-op. -/
theorem c8_swap_without_aliasing_fatal (s : TransformState)
    (hfm : s.feedbackMap = none) (hst : s.swapTexture = none) :
    Transform.swap s = none := by
  simp [Transform.swap, hfm, hst]

/-- Witness for C8 at the freshly constructed empty state. -/
theorem c8_swap_without_aliasing_fatal_witness :
    initialState.feedbackMap = none ∧ initialState.swapTexture = none ∧
    Transform.swap initialState = none :=
  ⟨rfl, rfl, c8_swap_without_aliasing_fatal initialState rfl rfl⟩

/-- C10: getBuffer returns null for a null name and for any name unbound in
the current generation's feedback table, raising no error, and returns the
underlying buffer handle when the name is bound to a wrapper object. -/
theorem c10_getBuffer_null_and_wrapper (s : TransformState) :
    Transform.getBuffer s none = none ∧
    (∀ n, jget (s.feedbackBuffers.get s.currentIndex) n = none →
      Transform.getBuffer s (some n) = none) ∧
    (∀ n b off,
      jget (s.feedbackBuffers.get s.currentIndex) n = some (BufValue.wrapped b off) →
      Transform.getBuffer s (some n) = some b) := by
  refine ⟨rfl, ?_, ?_⟩
  · intro n h
    simp [Transform.getBuffer, h]
  · intro n b off h
    simp [Transform.getBuffer, h]

/-- Witness for C10 at a concrete state: an unbound name, a name stored as
undefined, and a wrapper binding. -/
theorem c10_getBuffer_null_and_wrapper_witness :
    Transform.getBuffer c10state none = none ∧
    (jget (c10state.feedbackBuffers.get c10state.currentIndex) "x" = none ∧
      Transform.getBuffer c10state (some "x") = none) ∧
    (jget (c10state.feedbackBuffers.get c10state.currentIndex) "u" = none ∧
      Transform.getBuffer c10state (some "u") = none) ∧
    (jget (c10state.feedbackBuffers.get c10state.currentIndex) "w" =
        some (BufValue.wrapped bufA 0) ∧
      Transform.getBuffer c10state (some "w") = some bufA) := by
  obtain ⟨h1, h2, h3⟩ := c10_getBuffer_null_and_wrapper c10state
  exact ⟨h1, ⟨by decide, h2 "x" (by decide)⟩, ⟨by decide, h2 "u" (by decide)⟩,
    ⟨by decide, h3 "w" bufA 0 (by decide)⟩⟩

/-! Shape lemmas: each configuration phase only rewrites the fields below,
stated as a record update of the input state. -/

/-- The buffer made by _createNewBuffer from the given opts. -/
theorem createNewBuffer_shape (s : TransformState) (name : String)
    (opts : Transform.BufferOpts) :
    ∃ res des,
      Transform.createNewBuffer s name opts =
        ({ s with
            resources := res
            destroyed := des
            createdLog := s.createdLog ++ [(name, Resource.bufferRes (mkNewBuffer s opts))]
            nextId := s.nextId + 1 },
          mkNewBuffer s opts) := by
  unfold Transform.createNewBuffer mkNewBuffer
  dsimp only
  split <;> exact ⟨_, _, rfl⟩

theorem updateElementIDBuffer_shape (s : TransformState) (ec : Nat) :
    ∃ eib res des log nid,
      s.nextId ≤ nid ∧
      Transform.updateElementIDBuffer s ec =
        { s with
            elementIDBuffer := eib
            resources := res
            destroyed := des
            createdLog := log
            nextId := nid } := by
  unfold Transform.updateElementIDBuffer
  by_cases hg : s.hasSourceTextures = false ∧ s.targetTextureVarying = none
  · refine ⟨s.elementIDBuffer, s.resources, s.destroyed, s.createdLog, s.nextId,
      le_refl _, ?_⟩
    rw [if_pos hg]
  · rw [if_neg hg]
    dsimp only
    obtain ⟨res, des, hc⟩ :=
      createNewBuffer_shape s "elementIDBuffer"
        { data := some (List.range ec), accessor := some { size := 1 } }
    cases heb : s.elementIDBuffer with
    | none =>
      refine ⟨some (mkNewBuffer s
          { data := some (List.range ec), accessor := some { size := 1 } }),
        res, des,
        s.createdLog ++ [("elementIDBuffer", Resource.bufferRes (mkNewBuffer s
          { data := some (List.range ec), accessor := some { size := 1 } }))],
        s.nextId + 1, Nat.le_succ _, ?_⟩
      dsimp only
      rw [hc]
    | some b =>
      exact ⟨some { b with contents := List.range ec }, s.resources, s.destroyed,
        s.createdLog, s.nextId, le_refl _, rfl⟩

theorem swapLoop_src_inv (srcCur fbCur : Tbl (Option BufValue)) (ttv : Option String)
    (a b : String) (l : List (String × String))
    (hone : ∀ p ∈ l, p.1 = a → p = (a, b)) :
    ∀ sN fN r, Transform.swapLoop srcCur fbCur ttv l sN fN = some r →
      jget sN a = jget fbCur b → jget r.1 a = jget fbCur b := by
  induction l with
  | nil =>
    intro sN fN r h hinv
    unfold Transform.swapLoop at h
    cases h
    exact hinv
  | cons p rest ih =>
    obtain ⟨a', b'⟩ := p
    intro sN fN r h hinv
    have hone' : ∀ q ∈ rest, q.1 = a → q = (a, b) := by
      intro q hq
      exact hone q (List.mem_cons_of_mem _ hq)
    unfold Transform.swapLoop at h
    by_cases hskip : some b' = ttv
    · rw [if_pos hskip] at h
      exact ih hone' sN fN r h hinv
    · rw [if_neg hskip] at h
      dsimp only at h
      split at h
      · refine ih hone' _ _ r h ?_
        by_cases ha : a' = a
        · have hp := hone (a', b') (List.mem_cons_self _ _) ha
          have hb' : b' = b := by
            have := congrArg Prod.snd hp
            simpa using this
          subst ha
          subst hb'
          rw [jget_tset_self]
        · rw [jget_tset_ne _ _ _ _ (fun e => ha e.symm)]
          exact hinv
      · cases h

theorem swapLoop_fb_inv (srcCur fbCur : Tbl (Option BufValue)) (ttv : Option String)
    (a b : String) (l : List (String × String))
    (hdst : ∀ p ∈ l, p.2 = b → p = (a, b)) :
    ∀ sN fN r, Transform.swapLoop srcCur fbCur ttv l sN fN = some r →
      jget fN b = jget srcCur a → jget r.2 b = jget srcCur a := by
  induction l with
  | nil =>
    intro sN fN r h hinv
    unfold Transform.swapLoop at h
    cases h
    exact hinv
  | cons p rest ih =>
    obtain ⟨a', b'⟩ := p
    intro sN fN r h hinv
    have hdst' : ∀ q ∈ rest, q.2 = b → q = (a, b) := by
      intro q hq
      exact hdst q (List.mem_cons_of_mem _ hq)
    unfold Transform.swapLoop at h
    by_cases hskip : some b' = ttv
    · rw [if_pos hskip] at h
      exact ih hdst' sN fN r h hinv
    · rw [if_neg hskip] at h
      dsimp only at h
      split at h
      · refine ih hdst' _ _ r h ?_
        by_cases hbb : b' = b
        · have hp := hdst (a', b') (List.mem_cons_self _ _) hbb
          have ha' : a' = a := by
            have := congrArg Prod.fst hp
            simpa using this
          subst ha'
          subst hbb
          rw [jget_tset_self]
        · rw [jget_tset_ne _ _ _ _ (fun e => hbb e.symm)]
          exact hinv
      · cases h

theorem swapLoop_src_mem (srcCur fbCur : Tbl (Option BufValue)) (ttv : Option String)
    (a b : String) (hb : some b ≠ ttv) (l : List (String × String))
    (hmem : (a, b) ∈ l) (hone : ∀ p ∈ l, p.1 = a → p = (a, b)) :
    ∀ sN fN r, Transform.swapLoop srcCur fbCur ttv l sN fN = some r →
      jget r.1 a = jget fbCur b := by
  induction l with
  | nil => exact absurd hmem (List.not_mem_nil _)
  | cons p rest ih =>
    obtain ⟨a', b'⟩ := p
    intro sN fN r h
    have hone' : ∀ q ∈ rest, q.1 = a → q = (a, b) := by
      intro q hq
      exact hone q (List.mem_cons_of_mem _ hq)
    unfold Transform.swapLoop at h
    by_cases hskip : some b' = ttv
    · rw [if_pos hskip] at h
      have hmem' : (a, b) ∈ rest := by
        rcases List.mem_cons.mp hmem with heq | h'
        · exfalso
          apply hb
          have hbb : b = b' := by
            have := congrArg Prod.snd heq
            simpa using this
          rw [hbb]
          exact hskip
        · exact h'
      exact ih hmem' hone' sN fN r h
    · rw [if_neg hskip] at h
      dsimp only at h
      split at h
      · by_cases ha : a' = a
        · have hp := hone (a', b') (List.mem_cons_self _ _) ha
          have hb' : b' = b := by
            have := congrArg Prod.snd hp
            simpa using this
          rw [ha, hb'] at h
          exact swapLoop_src_inv srcCur fbCur ttv a b rest hone' _ _ r h
            (jget_tset_self _ _ _)
        · have hmem' : (a, b) ∈ rest := by
            rcases List.mem_cons.mp hmem with heq | h'
            · exfalso
              apply ha
              have := congrArg Prod.fst heq
              simpa using this.symm
            · exact h'
          exact ih hmem' hone' _ _ r h
      · cases h

theorem swapLoop_fb_mem (srcCur fbCur : Tbl (Option BufValue)) (ttv : Option String)
    (a b : String) (hb : some b ≠ ttv) (l : List (String × String))
    (hmem : (a, b) ∈ l) (hdst : ∀ p ∈ l, p.2 = b → p = (a, b)) :
    ∀ sN fN r, Transform.swapLoop srcCur fbCur ttv l sN fN = some r →
      jget r.2 b = jget srcCur a := by
  induction l with
  | nil => exact absurd hmem (List.not_mem_nil _)
  | cons p rest ih =>
    obtain ⟨a', b'⟩ := p
    intro sN fN r h
    have hdst' : ∀ q ∈ rest, q.2 = b → q = (a, b) := by
      intro q hq
      exact hdst q (List.mem_cons_of_mem _ hq)
    unfold Transform.swapLoop at h
    by_cases hskip : some b' = ttv
    · rw [if_pos hskip] at h
      have hmem' : (a, b) ∈ rest := by
        rcases List.mem_cons.mp hmem with heq | h'
        · exfalso
          apply hb
          have hbb : b = b' := by
            have := congrArg Prod.snd heq
            simpa using this
          rw [hbb]
          exact hskip
        · exact h'
      exact ih hmem' hdst' sN fN r h
    · rw [if_neg hskip] at h
      dsimp only at h
      split at h
      · by_cases hbb : b' = b
        · have hp := hdst (a', b') (List.mem_cons_self _ _) hbb
          have ha' : a' = a := by
            have := congrArg Prod.fst hp
            simpa using this
          rw [ha', hbb] at h
          exact swapLoop_fb_inv srcCur fbCur ttv a b rest hdst' _ _ r h
            (jget_tset_self _ _ _)
        · have hmem' : (a, b) ∈ rest := by
            rcases List.mem_cons.mp hmem with heq | h'
            · exfalso
              apply hbb
              have := congrArg Prod.snd heq
              simpa using this.symm
            · exact h'
          exact ih hmem' hdst' _ _ r h
      · cases h

theorem setupSwapBuffers_shape (s s' : TransformState)
    (h : Transform.setupSwapBuffers s = some s') :
    ∃ sb fb,
      s' = { s with sourceBuffers := sb, feedbackBuffers := fb } := by
  unfold Transform.setupSwapBuffers at h
  split at h
  · cases h
    exact ⟨s.sourceBuffers, s.feedbackBuffers, rfl⟩
  · dsimp only at h
    split at h
    · cases h
    · cases h
      exact ⟨_, _, rfl⟩

theorem setupSwapBuffers_lookups (s s' : TransformState)
    (fm : List (String × String)) (a b : String)
    (hidx : s.currentIndex < 2)
    (hm : s.feedbackMap = some fm)
    (h : Transform.setupSwapBuffers s = some s')
    (hb : some b ≠ s.targetTextureVarying)
    (hmem : (a, b) ∈ fm)
    (hone : ∀ p ∈ fm, p.1 = a → p = (a, b))
    (hdst : ∀ p ∈ fm, p.2 = b → p = (a, b)) :
    jget (s'.sourceBuffers.get ((s.currentIndex + 1) % 2)) a =
      jget (s.feedbackBuffers.get s.currentIndex) b ∧
    jget (s'.feedbackBuffers.get ((s.currentIndex + 1) % 2)) b =
      jget (s.sourceBuffers.get s.currentIndex) a ∧
    s'.sourceBuffers.get s.currentIndex = s.sourceBuffers.get s.currentIndex ∧
    s'.feedbackBuffers.get s.currentIndex = s.feedbackBuffers.get s.currentIndex := by
  unfold Transform.setupSwapBuffers at h
  split at h
  · rename_i hm2
    rw [hm2] at hm
    cases hm
  · rename_i fm2 hm2
    rw [hm2] at hm
    injection hm with hm
    subst hm
    dsimp only at h
    split at h
    · cases h
    · rename_i r heq
      cases h
      have hnext : (s.currentIndex + 1) % 2 < 2 := by omega
      have hne : s.currentIndex ≠ (s.currentIndex + 1) % 2 :=
        fun e => next_ne_cur s.currentIndex hidx e.symm
      refine ⟨?_, ?_, ?_, ?_⟩
      · rw [GenPair.get_set_same]
        exact swapLoop_src_mem _ _ _ a b hb _ hmem hone _ _ r heq
      · rw [GenPair.get_set_same]
        exact swapLoop_fb_mem _ _ _ a b hb _ hmem hdst _ _ r heq
      · exact GenPair.get_set_other _ _ _ _ hnext hidx hne
      · exact GenPair.get_set_other _ _ _ _ hnext hidx hne

theorem cfbStep_shape (fbp : Option (Tbl (Option BufValue))) (s s' : TransformState)
    (a b : String) (h : Transform.cfbStep fbp s a b = some s') :
    ∃ fbt res des log nid ext,
      s.nextId ≤ nid ∧ log = s.createdLog ++ ext ∧
      s' = { s with
        feedbackBuffers := fbt
        resources := res
        destroyed := des
        createdLog := log
        nextId := nid } := by
  unfold Transform.cfbStep at h
  split at h
  · split at h
    · cases h
    · rename_i v hv
      obtain ⟨res, des, hc⟩ := createNewBuffer_shape s b
        { byteLength := v.byteLengthF, usage := v.usageF, accessor := v.accessorF }
      rw [hc] at h
      cases h
      refine ⟨_, res, des,
        s.createdLog ++ [(b, Resource.bufferRes (mkNewBuffer s
          { byteLength := v.byteLengthF, usage := v.usageF, accessor := v.accessorF }))],
        s.nextId + 1,
        [(b, Resource.bufferRes (mkNewBuffer s
          { byteLength := v.byteLengthF, usage := v.usageF, accessor := v.accessorF }))],
        Nat.le_succ _, rfl, rfl⟩
  · cases h
    exact ⟨s.feedbackBuffers, s.resources, s.destroyed, s.createdLog, s.nextId,
      [], le_refl _, by simp, rfl⟩

theorem cfbLoop_shape (fbp : Option (Tbl (Option BufValue)))
    (l : List (String × String)) :
    ∀ s s', Transform.cfbLoop fbp l s = some s' →
    ∃ fbt res des log nid ext,
      s.nextId ≤ nid ∧ log = s.createdLog ++ ext ∧
      s' = { s with
        feedbackBuffers := fbt
        resources := res
        destroyed := des
        createdLog := log
        nextId := nid } := by
  induction l with
  | nil =>
    intro s s' h
    unfold Transform.cfbLoop at h
    cases h
    exact ⟨s.feedbackBuffers, s.resources, s.destroyed, s.createdLog, s.nextId,
      [], le_refl _, by simp, rfl⟩
  | cons p rest ih =>
    obtain ⟨a, b⟩ := p
    intro s s' h
    unfold Transform.cfbLoop at h
    split at h
    · cases h
    · rename_i s1 heq
      obtain ⟨fbt1, res1, des1, log1, nid1, ext1, hn1, hl1, he1⟩ :=
        cfbStep_shape fbp s s1 a b heq
      obtain ⟨fbt2, res2, des2, log2, nid2, ext2, hn2, hl2, he2⟩ := ih s1 s' h
      subst he1
      refine ⟨fbt2, res2, des2, log2, nid2, ext1 ++ ext2, ?_, ?_, he2⟩
      · exact le_trans hn1 hn2
      · rw [hl2]
        dsimp only
        rw [hl1, List.append_assoc]

theorem cfbStep_log (fbp : Option (Tbl (Option BufValue))) (s s1 : TransformState)
    (a' b' : String) (h : Transform.cfbStep fbp s a' b' = some s1) :
    s1.createdLog = s.createdLog ∨
    ((fbp.isNone ∨ (jget (fbp.getD []) b').isNone) ∧
      ∃ nb, s1.createdLog = s.createdLog ++ [(b', Resource.bufferRes nb)]) := by
  unfold Transform.cfbStep at h
  split at h
  · rename_i hcond
    split at h
    · cases h
    · rename_i v hv
      obtain ⟨res, des, hc⟩ := createNewBuffer_shape s b'
        { byteLength := v.byteLengthF, usage := v.usageF, accessor := v.accessorF }
      rw [hc] at h
      cases h
      exact Or.inr ⟨hcond.2, mkNewBuffer s
        { byteLength := v.byteLengthF, usage := v.usageF, accessor := v.accessorF }, rfl⟩
  · cases h
    exact Or.inl rfl

theorem cfbLoop_creates (fbp : Option (Tbl (Option BufValue)))
    (l : List (String × String)) (a b : String) (v : BufValue) :
    ∀ s s', Transform.cfbLoop fbp l s = some s' →
    (a, b) ∈ l →
    some b ≠ s.targetTextureVarying →
    (fbp.isNone ∨ (jget (fbp.getD []) b).isNone) →
    jget (s.sourceBuffers.get s.currentIndex) a = some v →
    ∃ nb : Buffer,
      (b, Resource.bufferRes nb) ∈ s'.createdLog ∧
      s.nextId ≤ nb.id ∧
      nb.byteLength = v.byteLengthF ∧ nb.usage = v.usageF ∧
      nb.accessor = v.accessorF ∧ nb.contents = [] := by
  induction l with
  | nil =>
    intro s s' h hmem
    exact absurd hmem (List.not_mem_nil _)
  | cons p rest ih =>
    obtain ⟨a', b'⟩ := p
    intro s s' h hmem httv hfbp hsrc
    unfold Transform.cfbLoop at h
    split at h
    · cases h
    · rename_i s1 heq
      by_cases hpe : a' = a ∧ b' = b
      · obtain ⟨ha, hb⟩ := hpe
        rw [ha, hb] at heq
        unfold Transform.cfbStep at heq
        rw [if_pos ⟨httv, hfbp⟩] at heq
        rw [hsrc] at heq
        dsimp only at heq
        obtain ⟨res, des, hc⟩ := createNewBuffer_shape s b
          { byteLength := v.byteLengthF, usage := v.usageF, accessor := v.accessorF }
        rw [hc] at heq
        cases heq
        obtain ⟨fbt2, res2, des2, log2, nid2, ext2, hn2, hl2, he2⟩ :=
          cfbLoop_shape fbp rest _ s' h
        refine ⟨mkNewBuffer s
          { byteLength := v.byteLengthF, usage := v.usageF, accessor := v.accessorF },
          ?_, le_refl _, rfl, rfl, rfl, rfl⟩
        rw [he2]
        dsimp only
        rw [hl2]
        dsimp only
        simp [List.mem_append]
      · have hmem' : (a, b) ∈ rest := by
          rcases List.mem_cons.mp hmem with heq2 | h2
          · exfalso
            apply hpe
            have h1 := congrArg Prod.fst heq2
            have h2 := congrArg Prod.snd heq2
            simp only at h1 h2
            exact ⟨h1.symm, h2.symm⟩
          · exact h2
        obtain ⟨fbt1, res1, des1, log1, nid1, ext1, hn1, hl1, he1⟩ :=
          cfbStep_shape fbp s s1 a' b' heq
        subst he1
        obtain ⟨nb, hmem2, hid, hf1, hf2, hf3, hf4⟩ :=
          ih _ s' h hmem' httv hfbp hsrc
        exact ⟨nb, hmem2, le_trans hn1 hid, hf1, hf2, hf3, hf4⟩

theorem cfbLoop_no_create (fbp : Option (Tbl (Option BufValue)))
    (l : List (String × String)) (b : String)
    (hsup1 : fbp.isSome = true) (hsup2 : (jget (fbp.getD []) b).isSome = true) :
    ∀ s s', Transform.cfbLoop fbp l s = some s' → ∀ r : Resource,
      ((b, r) ∈ s'.createdLog ↔ (b, r) ∈ s.createdLog) := by
  induction l with
  | nil =>
    intro s s' h r
    unfold Transform.cfbLoop at h
    cases h
    exact Iff.rfl
  | cons p rest ih =>
    obtain ⟨a', b'⟩ := p
    intro s s' h r
    unfold Transform.cfbLoop at h
    split at h
    · cases h
    · rename_i s1 heq
      have hrest := ih s1 s' h r
      rcases cfbStep_log fbp s s1 a' b' heq with hlog | ⟨hcond, nb, hlog⟩
      · rw [hrest, hlog]
      · by_cases hbb : b' = b
        · subst hbb
          rcases hcond with hN | hJ
          · rw [Option.isNone_iff_eq_none] at hN
            rw [hN] at hsup1
            simp at hsup1
          · rw [Option.isNone_iff_eq_none] at hJ
            rw [hJ] at hsup2
            simp at hsup2
        · have hne : (b, r) ≠ (b', Resource.bufferRes nb) := by
            intro e
            exact hbb (congrArg Prod.fst e).symm
          rw [hrest, hlog, List.mem_append, List.mem_singleton]
          exact or_iff_left hne

theorem setupBuffers_eq (s : TransformState) (props : TransformProps) :
    Transform.setupBuffers s props =
      if ((Transform.deducedFeedback props).getD []).all (fun q => q.2.isSome) then
        match Transform.createFeedbackBuffers (setupBuffersPre s props)
            (Transform.deducedFeedback props) with
        | none => none
        | some sB => Transform.setupSwapBuffers sB
      else none := by
  unfold Transform.setupBuffers Transform.deduceBufferProps setupBuffersPre
  by_cases hall : (((Transform.deducedFeedback props).getD []).all
      (fun q => q.2.isSome)) = true
  · rw [if_pos hall, if_pos hall]
  · rw [if_neg hall, if_neg hall]

theorem setupBuffersPre_feedbackMap (s : TransformState) (props : TransformProps) :
    (setupBuffersPre s props).feedbackMap = effectiveFeedbackMap s props := by
  unfold setupBuffersPre effectiveFeedbackMap
  cases Transform.deducedMap props <;> rfl

theorem setupBuffersPre_core (s : TransformState) (props : TransformProps) :
    (setupBuffersPre s props).currentIndex = s.currentIndex ∧
    (setupBuffersPre s props).targetTextureVarying = s.targetTextureVarying ∧
    (setupBuffersPre s props).nextId = s.nextId ∧
    (setupBuffersPre s props).createdLog = s.createdLog ∧
    (setupBuffersPre s props).elementIDBuffer = s.elementIDBuffer ∧
    (setupBuffersPre s props).elementCount = s.elementCount ∧
    (setupBuffersPre s props).framebuffers = s.framebuffers ∧
    (setupBuffersPre s props).renderingToTexture = s.renderingToTexture ∧
    (setupBuffersPre s props).sourceTextures = s.sourceTextures ∧
    (setupBuffersPre s props).targetTextures = s.targetTextures ∧
    (setupBuffersPre s props).swapTexture = s.swapTexture ∧
    (setupBuffersPre s props).hasSourceTextures = s.hasSourceTextures ∧
    (setupBuffersPre s props).resources = s.resources ∧
    (setupBuffersPre s props).sourceBuffers = s.sourceBuffers.set s.currentIndex
      (tassign (s.sourceBuffers.get s.currentIndex) props.sourceBuffers) ∧
    (setupBuffersPre s props).feedbackBuffers = s.feedbackBuffers.set s.currentIndex
      (tassign (s.feedbackBuffers.get s.currentIndex)
        ((Transform.deducedFeedback props).getD [])) := by
  unfold setupBuffersPre
  cases Transform.deducedMap props <;>
    exact ⟨rfl, rfl, rfl, rfl, rfl, rfl, rfl, rfl, rfl, rfl, rfl, rfl, rfl, rfl, rfl⟩

theorem setupTransformFeedback_shape (s : TransformState) :
    ∃ tfs nid, s.nextId ≤ nid ∧
      Transform.setupTransformFeedback s =
        { s with transformFeedbacks := tfs, nextId := nid } := by
  unfold Transform.setupTransformFeedback
  by_cases h1 : ((s.feedbackBuffers.get s.currentIndex).isEmpty : Bool) = true
  · rw [if_pos h1]
    exact ⟨s.transformFeedbacks, s.nextId, le_refl _, rfl⟩
  · rw [if_neg h1]
    cases htf : s.transformFeedbacks.get s.currentIndex with
    | some tf =>
      simp only [htf]
      cases hfm : s.feedbackMap with
      | none =>
        simp only [hfm]
        exact ⟨_, s.nextId, le_refl _, rfl⟩
      | some fm =>
        simp only [hfm]
        cases hnx : (s.transformFeedbacks.set s.currentIndex
            (some { id := tf.id, buffers := s.feedbackBuffers.get s.currentIndex })).get
              ((s.currentIndex + 1) % 2) with
        | some tf2 =>
          simp only [hnx]
          exact ⟨_, s.nextId, le_refl _, rfl⟩
        | none =>
          simp only [hnx]
          exact ⟨_, s.nextId + 1, Nat.le_succ _, rfl⟩
    | none =>
      simp only [htf]
      cases hfm : s.feedbackMap with
      | none =>
        simp only [hfm]
        exact ⟨_, s.nextId + 1, Nat.le_succ _, rfl⟩
      | some fm =>
        simp only [hfm]
        cases hnx : (s.transformFeedbacks.set s.currentIndex
            (some { id := s.nextId, buffers := s.feedbackBuffers.get s.currentIndex })).get
              ((s.currentIndex + 1) % 2) with
        | some tf2 =>
          simp only [hnx]
          exact ⟨_, s.nextId + 1, Nat.le_succ _, rfl⟩
        | none =>
          simp only [hnx]
          exact ⟨_, s.nextId + 1 + 1, by omega, rfl⟩

theorem buildTargetTexture_shape (s : TransformState) (tor : TexOrRef) (i : Nat)
    (p : TransformState × Texture)
    (h : Transform.buildTargetTexture s tor i = some p) :
    ∃ refn res des log nid ext,
      s.nextId ≤ nid ∧ log = s.createdLog ++ ext ∧
      p.1 = { s with
        targetRefTexName := refn
        resources := res
        destroyed := des
        createdLog := log
        nextId := nid } := by
  unfold Transform.buildTargetTexture at h
  cases tor with
  | texVal t0 =>
    cases h
    exact ⟨none, s.resources, s.destroyed, s.createdLog, s.nextId, [],
      le_refl _, by simp, rfl⟩
  | refName name =>
    dsimp only at h
    split at h
    · cases h
    · rename_i refT href
      split at h
      · rename_i r hres
        cases h
        exact ⟨some name, _, _,
          s.createdLog ++ [("target-texture-" ++ toString i,
            Resource.textureRes (mkCloneTexture s refT))],
          s.nextId + 1,
          [("target-texture-" ++ toString i,
            Resource.textureRes (mkCloneTexture s refT))],
          Nat.le_succ _, rfl, rfl⟩
      · cases h
        exact ⟨some name, _, _,
          s.createdLog ++ [("target-texture-" ++ toString i,
            Resource.textureRes (mkCloneTexture s refT))],
          s.nextId + 1,
          [("target-texture-" ++ toString i,
            Resource.textureRes (mkCloneTexture s refT))],
          Nat.le_succ _, rfl, rfl⟩

theorem setupSwapTextures_shape (s : TransformState) :
    ∃ st tt, Transform.setupSwapTextures s =
      { s with sourceTextures := st, targetTextures := tt } := by
  unfold Transform.setupSwapTextures
  split
  · exact ⟨_, _, rfl⟩
  · exact ⟨s.sourceTextures, s.targetTextures, rfl⟩

theorem setupFramebufferOne_shape (s : TransformState) (fbOpt : Option Framebuffer)
    (texOpt : Option Texture) (p : TransformState × Framebuffer)
    (h : Transform.setupFramebufferOne s fbOpt texOpt = some p) :
    p.1 = s ∨ p.1 = { s with nextId := s.nextId + 1 } := by
  unfold Transform.setupFramebufferOne at h
  split at h
  · cases h
  · split at h
    · cases h
      exact Or.inl rfl
    · cases h
      exact Or.inr rfl

theorem setupFramebuffers_shape (s s' : TransformState)
    (h : Transform.setupFramebuffers s = some s') :
    ∃ fbs nid, s.nextId ≤ nid ∧
      s' = { s with framebuffers := fbs, nextId := nid } := by
  unfold Transform.setupFramebuffers at h
  split at h
  · cases h
    exact ⟨s.framebuffers, s.nextId, le_refl _, rfl⟩
  · dsimp only at h
    split at h
    · cases h
    · rename_i p heq1
      rcases setupFramebufferOne_shape _ _ _ _ heq1 with h1 | h1 <;> rw [h1] at h
      · split at h
        · cases h
          exact ⟨_, s.nextId, le_refl _, rfl⟩
        · split at h
          · cases h
          · rename_i q heq2
            rcases setupFramebufferOne_shape _ _ _ _ heq2 with h2 | h2 <;>
              rw [h2] at h <;> cases h
            · exact ⟨_, s.nextId, le_refl _, rfl⟩
            · exact ⟨_, s.nextId + 1, Nat.le_succ _, rfl⟩
      · split at h
        · cases h
          exact ⟨_, s.nextId + 1, Nat.le_succ _, rfl⟩
        · split at h
          · cases h
          · rename_i q heq2
            rcases setupFramebufferOne_shape _ _ _ _ heq2 with h2 | h2 <;>
              rw [h2] at h <;> cases h
            · exact ⟨_, s.nextId + 1, Nat.le_succ _, rfl⟩
            · exact ⟨_, s.nextId + 1 + 1, by omega, rfl⟩

theorem setupTexturesAssign_shape (s : TransformState) (props : TransformProps) :
    Transform.setupTexturesAssign s props =
      { s with
        sourceTextures := s.sourceTextures.set s.currentIndex
          (tassign (s.sourceTextures.get s.currentIndex) (props.sourceTextures.getD []))
        hasSourceTextures := !(s.sourceTextures.set s.currentIndex
          (tassign (s.sourceTextures.get s.currentIndex)
            (props.sourceTextures.getD []))).g0.isEmpty } := rfl

theorem setupTexturesBuild_shape (s : TransformState) (tt : Option TexOrRef)
    (s2 : TransformState) (h : Transform.setupTexturesBuild s tt = some s2) :
    ∃ tgtT refn res des log nid ext,
      s.nextId ≤ nid ∧ log = s.createdLog ++ ext ∧
      s2 = { s with
        targetTextures := tgtT
        targetRefTexName := refn
        resources := res
        destroyed := des
        createdLog := log
        nextId := nid } := by
  unfold Transform.setupTexturesBuild at h
  split at h
  · split at h
    · cases h
    · rename_i p hbt
      obtain ⟨refn, res, des, log, nid, ext, hn, hlog, hp⟩ :=
        buildTargetTexture_shape _ _ _ p hbt
      rw [hp] at h
      cases h
      exact ⟨_, refn, res, des, log, nid, ext, hn, hlog, rfl⟩
  · cases h
    exact ⟨s.targetTextures, s.targetRefTexName, s.resources, s.destroyed,
      s.createdLog, s.nextId, [], le_refl _, by simp, rfl⟩

theorem setupTexturesFinish_shape (s : TransformState) (tt : Option TexOrRef)
    (s2 : TransformState) (h : Transform.setupTexturesFinish s tt = some s2) :
    ∃ srcT tgtT fbs nid, s.nextId ≤ nid ∧
      s2 = { s with
        sourceTextures := srcT
        targetTextures := tgtT
        framebuffers := fbs
        nextId := nid } := by
  unfold Transform.setupTexturesFinish at h
  obtain ⟨st2, tt2, hsw⟩ := setupSwapTextures_shape s
  rw [hsw] at h
  split at h
  · obtain ⟨fbs2, nid2, hn2, hfb2⟩ := setupFramebuffers_shape _ _ h
    dsimp only at hn2
    refine ⟨st2, tt2, fbs2, nid2, hn2, ?_⟩
    rw [hfb2]
  · cases h
    exact ⟨st2, tt2, s.framebuffers, s.nextId, le_refl _, rfl⟩

theorem setupTexturesCore_shape (s : TransformState) (props : TransformProps)
    (s' : TransformState) (h : Transform.setupTexturesCore s props = some s') :
    ∃ srcT hasT tgtT refn fbs res des log nid ext,
      s.nextId ≤ nid ∧ log = s.createdLog ++ ext ∧
      s' = { s with
        sourceTextures := srcT
        hasSourceTextures := hasT
        targetTextures := tgtT
        targetRefTexName := refn
        framebuffers := fbs
        resources := res
        destroyed := des
        createdLog := log
        nextId := nid } := by
  unfold Transform.setupTexturesCore at h
  split at h
  · cases h
  · dsimp only at h
    split at h
    · cases h
    · rename_i tt hres
      split at h
      · cases h
      · rename_i sB hbt
        rw [setupTexturesAssign_shape] at hbt
        obtain ⟨tgtT, refn, res, des, log, nid, ext, hn, hlog, hsB⟩ :=
          setupTexturesBuild_shape _ _ _ hbt
        rw [hsB] at h
        obtain ⟨srcT2, tgtT2, fbs2, nid2, hn2, hfin⟩ :=
          setupTexturesFinish_shape _ _ _ h
        dsimp only at hn hn2 hlog
        exact ⟨srcT2, _, tgtT2, refn, fbs2, res, des, log, nid2,
          ext, le_trans hn hn2, hlog, hfin⟩

theorem setElementCount_shape (s : TransformState) (props : TransformProps) :
    ∃ ec eib res des log nid,
      s.nextId ≤ nid ∧
      Transform.setElementCount s props =
        { s with
            elementCount := ec
            elementIDBuffer := eib
            resources := res
            destroyed := des
            createdLog := log
            nextId := nid } := by
  unfold Transform.setElementCount
  cases hec : props.elementCount with
  | none =>
    exact ⟨s.elementCount, s.elementIDBuffer, s.resources, s.destroyed,
      s.createdLog, s.nextId, le_refl _, rfl⟩
  | some ec =>
    dsimp only
    by_cases h1 : s.elementCount = ec
    · rw [if_pos h1]
      exact ⟨s.elementCount, s.elementIDBuffer, s.resources, s.destroyed,
        s.createdLog, s.nextId, le_refl _, rfl⟩
    · rw [if_neg h1]
      by_cases h2 : s.elementCount < ec
      · rw [if_pos h2]
        obtain ⟨eib, res, des, log, nid, hn, hu⟩ := updateElementIDBuffer_shape s ec
        rw [hu]
        exact ⟨ec, eib, res, des, log, nid, hn, rfl⟩
      · rw [if_neg h2]
        exact ⟨ec, s.elementIDBuffer, s.resources, s.destroyed, s.createdLog,
          s.nextId, le_refl _, rfl⟩

theorem createFeedbackBuffers_shape (s : TransformState)
    (fbp : Option (Tbl (Option BufValue))) (s2 : TransformState)
    (h : Transform.createFeedbackBuffers s fbp = some s2) :
    ∃ fbt res des log nid ext,
      s.nextId ≤ nid ∧ log = s.createdLog ++ ext ∧
      s2 = { s with
        feedbackBuffers := fbt
        resources := res
        destroyed := des
        createdLog := log
        nextId := nid } := by
  unfold Transform.createFeedbackBuffers at h
  split at h
  · cases h
    exact ⟨s.feedbackBuffers, s.resources, s.destroyed, s.createdLog, s.nextId,
      [], le_refl _, by simp, rfl⟩
  · exact cfbLoop_shape fbp _ s s2 h

theorem setupBuffersPre_shape (s : TransformState) (props : TransformProps) :
    setupBuffersPre s props =
      { s with
        feedbackMap := effectiveFeedbackMap s props
        sourceBuffers := s.sourceBuffers.set s.currentIndex
          (tassign (s.sourceBuffers.get s.currentIndex) props.sourceBuffers)
        feedbackBuffers := s.feedbackBuffers.set s.currentIndex
          (tassign (s.feedbackBuffers.get s.currentIndex)
            ((Transform.deducedFeedback props).getD [])) } := by
  unfold setupBuffersPre effectiveFeedbackMap
  cases Transform.deducedMap props <;> rfl

theorem effectiveFeedbackMap_congr (s t : TransformState) (props : TransformProps)
    (h : t.feedbackMap = s.feedbackMap) :
    effectiveFeedbackMap t props = effectiveFeedbackMap s props := by
  unfold effectiveFeedbackMap
  cases Transform.deducedMap props
  · exact h
  · rfl

theorem setupTextures_shape (s : TransformState) (props : TransformProps)
    (s' : TransformState) (h : Transform.setupTextures s props = some s') :
    ∃ swpT srcT hasT tgtT refn fbs res des log nid ext,
      s.nextId ≤ nid ∧ log = s.createdLog ++ ext ∧
      s' = { s with
        swapTexture := swpT
        sourceTextures := srcT
        hasSourceTextures := hasT
        targetTextures := tgtT
        targetRefTexName := refn
        framebuffers := fbs
        resources := res
        destroyed := des
        createdLog := log
        nextId := nid } := by
  unfold Transform.setupTextures at h
  cases hsw : props.swapTexture with
  | some n =>
    rw [hsw] at h
    dsimp only at h
    obtain ⟨srcT, hasT, tgtT, refn, fbs, res, des, log, nid, ext, hn, hlog, hs'⟩ :=
      setupTexturesCore_shape _ props s' h
    dsimp only at hn hlog
    exact ⟨some n, srcT, hasT, tgtT, refn, fbs, res, des, log, nid, ext,
      hn, hlog, hs'⟩
  | none =>
    rw [hsw] at h
    dsimp only at h
    obtain ⟨srcT, hasT, tgtT, refn, fbs, res, des, log, nid, ext, hn, hlog, hs'⟩ :=
      setupTexturesCore_shape _ props s' h
    exact ⟨s.swapTexture, srcT, hasT, tgtT, refn, fbs, res, des, log, nid, ext,
      hn, hlog, hs'⟩

theorem update_decomp (s : TransformState) (props : TransformProps)
    (s' : TransformState) (h : Transform.update s props = some s') :
    ∃ sB, Transform.setupBuffers (Transform.setElementCount s props) props = some sB ∧
      Transform.setupTextures (Transform.setupTransformFeedback sB) props = some s' := by
  unfold Transform.update at h
  dsimp only at h
  split at h
  · cases h
  · rename_i sB heq
    exact ⟨sB, heq, h⟩

/-- C1 (amended): for every configuration call whose effective feedback map
contains the pair (a, b), where b is not the texture-output name and no
other pair of the map shares the source name a or the destination name b,
the call leaves the other generation's source entry under a equal to the
current generation's feedback entry under b, and the other generation's
feedback entry under b equal to the current generation's source entry
under a; after one swap the new current generation's bindings are the
previous generation's opposite bindings. The uniqueness hypotheses are
needed because later pairs of the map overwrite earlier ones. -/
theorem c1_feedback_cross_generation_aliasing
    (s : TransformState) (props : TransformProps) (s' : TransformState)
    (fm : List (String × String)) (a b : String)
    (hidx : s.currentIndex < 2)
    (hupd : Transform.update s props = some s')
    (hfm : effectiveFeedbackMap s props = some fm)
    (hmem : (a, b) ∈ fm)
    (httv : s.targetTextureVarying ≠ some b)
    (hone : ∀ p ∈ fm, p.1 = a → p = (a, b))
    (hdst : ∀ p ∈ fm, p.2 = b → p = (a, b)) :
    jget (s'.sourceBuffers.get ((s.currentIndex + 1) % 2)) a =
      jget (s'.feedbackBuffers.get s.currentIndex) b ∧
    jget (s'.feedbackBuffers.get ((s.currentIndex + 1) % 2)) b =
      jget (s'.sourceBuffers.get s.currentIndex) a ∧
    ∀ s'', Transform.swap s' = some s'' →
      s''.currentIndex = (s.currentIndex + 1) % 2 ∧
      jget (s''.sourceBuffers.get s''.currentIndex) a =
        jget (s'.feedbackBuffers.get s'.currentIndex) b ∧
      jget (s''.feedbackBuffers.get s''.currentIndex) b =
        jget (s'.sourceBuffers.get s'.currentIndex) a := by
  obtain ⟨sB, hB, hT⟩ := update_decomp s props s' hupd
  obtain ⟨ecE, eibE, resE, desE, logE, nidE, hnE, hsE⟩ := setElementCount_shape s props
  rw [hsE] at hB
  rw [setupBuffers_eq] at hB
  split at hB
  · split at hB
    · cases hB
    · rename_i sC heqC
      obtain ⟨fbtC, resC, desC, logC, nidC, extC, hnC, hlogC, hsC⟩ :=
        createFeedbackBuffers_shape _ _ _ heqC
      rw [setupBuffersPre_shape] at hsC
      have hcur : sC.currentIndex = s.currentIndex := by rw [hsC]
      have hm' : sC.feedbackMap = some fm := by
        rw [hsC]
        show effectiveFeedbackMap _ props = some fm
        exact (effectiveFeedbackMap_congr s _ props rfl).trans hfm
      have hidx' : sC.currentIndex < 2 := by rw [hcur]; exact hidx
      have httv' : some b ≠ sC.targetTextureVarying := by
        rw [hsC]
        exact Ne.symm httv
      obtain ⟨L1, L2, L3, L4⟩ :=
        setupSwapBuffers_lookups sC sB fm a b hidx' hm' hB httv' hmem hone hdst
      rw [hcur] at L1 L2 L3 L4
      obtain ⟨sbX, fbX, hsB⟩ := setupSwapBuffers_shape sC sB hB
      have hCiB : sB.currentIndex = s.currentIndex := by rw [hsB, hsC]
      obtain ⟨tfs, nidT, hnT, hTF⟩ := setupTransformFeedback_shape sB
      rw [hTF] at hT
      obtain ⟨swpT, srcT, hasT, tgtT, refn, fbs, resT, desT, logT, nidT2, extT,
        hnT2, hlogT, hs'⟩ := setupTextures_shape _ props s' hT
      have hSrc : s'.sourceBuffers = sB.sourceBuffers := by rw [hs']
      have hFb : s'.feedbackBuffers = sB.feedbackBuffers := by rw [hs']
      have hCi : s'.currentIndex = s.currentIndex := by rw [hs']; exact hCiB
      have G1 : jget (s'.sourceBuffers.get ((s.currentIndex + 1) % 2)) a =
          jget (s'.feedbackBuffers.get s.currentIndex) b := by
        rw [hSrc, hFb, L4]
        exact L1
      have G2 : jget (s'.feedbackBuffers.get ((s.currentIndex + 1) % 2)) b =
          jget (s'.sourceBuffers.get s.currentIndex) a := by
        rw [hSrc, hFb, L3]
        exact L2
      refine ⟨G1, G2, ?_⟩
      intro s'' hsw
      unfold Transform.swap at hsw
      split at hsw
      · cases hsw
        refine ⟨by rw [hCi], ?_, ?_⟩
        · show jget (s'.sourceBuffers.get ((s'.currentIndex + 1) % 2)) a =
            jget (s'.feedbackBuffers.get s'.currentIndex) b
          rw [hCi]
          exact G1
        · show jget (s'.feedbackBuffers.get ((s'.currentIndex + 1) % 2)) b =
            jget (s'.sourceBuffers.get s'.currentIndex) a
          rw [hCi]
          exact G2
      · cases hsw
  · cases hB

/-- Witness for C1 at a one-pair feedback map over concrete buffers. -/
theorem c1_witness :
    c1State.currentIndex < 2 ∧
    effectiveFeedbackMap c1State c1Props = some [("a", "b")] ∧
    ("a", "b") ∈ [("a", "b")] ∧
    c1State.targetTextureVarying ≠ some "b" ∧
    Transform.update c1State c1Props = some c1Result ∧
    jget (c1Result.sourceBuffers.get 1) "a" =
      jget (c1Result.feedbackBuffers.get 0) "b" ∧
    jget (c1Result.feedbackBuffers.get 1) "b" =
      jget (c1Result.sourceBuffers.get 0) "a" := by
  refine ⟨by decide, by decide, by decide, by decide, by decide, ?_, ?_⟩
  · exact (c1_feedback_cross_generation_aliasing c1State c1Props c1Result
      [("a", "b")] "a" "b" (by decide) (by decide) (by decide) (by decide)
      (by decide) (by decide) (by decide)).1
  · exact (c1_feedback_cross_generation_aliasing c1State c1Props c1Result
      [("a", "b")] "a" "b" (by decide) (by decide) (by decide) (by decide)
      (by decide) (by decide) (by decide)).2.1

/-- Counterexample to the unqualified C1: with the duplicate-destination
map [(a, b), (c, b)] the pair (a, b) is overwritten by (c, b), so the other
generation's feedback entry under b holds the source buffer named c, not
the one named a. -/
theorem c1_counterexample :
    effectiveFeedbackMap c1ceState c1ceProps = some [("a", "b"), ("c", "b")] ∧
    ("a", "b") ∈ [("a", "b"), ("c", "b")] ∧
    c1ceState.targetTextureVarying ≠ some "b" ∧
    c1ceState.currentIndex = 0 ∧
    Transform.update c1ceState c1ceProps = some c1ceResult ∧
    jget (c1ceResult.sourceBuffers.get 0) "a" = some (BufValue.buf bufA) ∧
    jget (c1ceResult.feedbackBuffers.get 1) "b" = some (BufValue.buf bufC) ∧
    BufValue.buf bufC ≠ BufValue.buf bufA := by decide

/-- C2 (amended): on a configuration call, for every pair (a, b) of the
effective feedback map whose destination b is not the texture-output name,
whenever the call's explicit feedback-buffer prop does not supply b, a new
feedback buffer named b is created copying byte length, usage and layout
descriptor of the current generation's source buffer named a; when the
call supplies b explicitly, no buffer is created for b. Whether the
instance's feedback table already binds b does not matter. -/
theorem c2_feedback_buffer_autocreation :
    (∀ (s : TransformState) (props : TransformProps) (s' : TransformState)
        (fm : List (String × String)) (a b : String) (sb : Buffer),
      Transform.update s props = some s' →
      effectiveFeedbackMap s props = some fm →
      (a, b) ∈ fm →
      s.targetTextureVarying ≠ some b →
      ((Transform.deducedFeedback props).isNone ∨
        (jget ((Transform.deducedFeedback props).getD []) b).isNone) →
      jget (tassign (s.sourceBuffers.get s.currentIndex) props.sourceBuffers) a =
        some (BufValue.buf sb) →
      ∃ nb : Buffer,
        (b, Resource.bufferRes nb) ∈ s'.createdLog ∧
        s.nextId ≤ nb.id ∧
        nb.byteLength = sb.byteLength ∧ nb.usage = sb.usage ∧
        nb.accessor = sb.accessor) ∧
    (∀ (s s2 : TransformState) (fbp : Tbl (Option BufValue)) (b : String),
      (jget fbp b).isSome →
      Transform.createFeedbackBuffers s (some fbp) = some s2 →
      ∀ r : Resource, ((b, r) ∈ s2.createdLog ↔ (b, r) ∈ s.createdLog)) := by
  constructor
  · intro s props s' fm a b sb hupd hfm hmem httv hfbp hsrc
    obtain ⟨sB, hB, hT⟩ := update_decomp s props s' hupd
    obtain ⟨ecE, eibE, resE, desE, logE, nidE, hnE, hsE⟩ := setElementCount_shape s props
    rw [hsE] at hB
    rw [setupBuffers_eq] at hB
    split at hB
    · split at hB
      · cases hB
      · rename_i sC heqC
        rw [setupBuffersPre_shape] at heqC
        unfold Transform.createFeedbackBuffers at heqC
        dsimp only at heqC
        have hEfm : effectiveFeedbackMap
            { s with
              elementCount := ecE
              resources := resE
              destroyed := desE
              createdLog := logE
              elementIDBuffer := eibE
              nextId := nidE } props = some fm :=
          (effectiveFeedbackMap_congr s _ props rfl).trans hfm
        rw [hEfm] at heqC
        have hsrc2 : jget (((s.sourceBuffers.set s.currentIndex
            (tassign (s.sourceBuffers.get s.currentIndex) props.sourceBuffers))).get
              s.currentIndex) a = some (BufValue.buf sb) := by
          rw [GenPair.get_set_same]
          exact hsrc
        obtain ⟨nb, hmemC, hid, hf1, hf2, hf3, hf4⟩ :=
          cfbLoop_creates (Transform.deducedFeedback props) fm a b
            (BufValue.buf sb) _ sC heqC hmem (Ne.symm httv) hfbp hsrc2
        refine ⟨nb, ?_, le_trans hnE hid, hf1, hf2, hf3⟩
        obtain ⟨sbX, fbX, hsB⟩ := setupSwapBuffers_shape sC sB hB
        obtain ⟨tfs, nidT, hnT, hTF⟩ := setupTransformFeedback_shape sB
        rw [hTF] at hT
        obtain ⟨swpT, srcT, hasT, tgtT, refn, fbs, resT, desT, logT, nidT2, extT,
          hnT2, hlogT, hs'⟩ := setupTextures_shape _ props s' hT
        rw [hs']
        show (b, Resource.bufferRes nb) ∈ logT
        rw [hlogT]
        refine List.mem_append_left _ ?_
        show (b, Resource.bufferRes nb) ∈ sB.createdLog
        rw [hsB]
        exact hmemC
    · cases hB
  · intro s s2 fbp b hin h r
    unfold Transform.createFeedbackBuffers at h
    split at h
    · cases h
      exact Iff.rfl
    · exact cfbLoop_no_create (some fbp) _ b rfl hin s s2 h r

/-- Witness for C2: auto-creation copying the source layout, and no
creation when the call supplies the destination buffer. -/
theorem c2_witness :
    (Transform.update c2State c2Props = some c2Result ∧
      effectiveFeedbackMap c2State c2Props = some [("a", "b")] ∧
      c2State.targetTextureVarying ≠ some "b" ∧
      (Transform.deducedFeedback c2Props).isNone = true ∧
      jget (tassign (c2State.sourceBuffers.get c2State.currentIndex)
        c2Props.sourceBuffers) "a" = some (BufValue.buf bufA) ∧
      ∃ nb : Buffer,
        ("b", Resource.bufferRes nb) ∈ c2Result.createdLog ∧
        c2State.nextId ≤ nb.id ∧
        nb.byteLength = bufA.byteLength ∧ nb.usage = bufA.usage ∧
        nb.accessor = bufA.accessor) ∧
    ((jget c2SupFbp "b").isSome = true ∧
      Transform.createFeedbackBuffers c2SupState (some c2SupFbp) = some c2SupResult ∧
      (("b", Resource.bufferRes bufB) ∈ c2SupResult.createdLog ↔
        ("b", Resource.bufferRes bufB) ∈ c2SupState.createdLog)) := by
  constructor
  · refine ⟨by decide, by decide, by decide, by decide, by decide, ?_⟩
    exact c2_feedback_buffer_autocreation.1 c2State c2Props c2Result
      [("a", "b")] "a" "b" bufA (by decide) (by decide) (by decide) (by decide)
      (Or.inl (by decide)) (by decide)
  · refine ⟨by decide, by decide, ?_⟩
    exact c2_feedback_buffer_autocreation.2 c2SupState c2SupResult c2SupFbp "b"
      (by decide) (by decide) (Resource.bufferRes bufB)

/-- Counterexample to the unqualified C2: a feedback buffer named b
already exists in the instance's table, yet an update call that does not
resupply it creates a fresh buffer for b anyway. -/
theorem c2_counterexample :
    jget (c2ceState.feedbackBuffers.get c2ceState.currentIndex) "b" =
      some (BufValue.buf bufB) ∧
    effectiveFeedbackMap c2ceState c2ceProps = some [("a", "b")] ∧
    Transform.update c2ceState c2ceProps = some c2ceResult ∧
    ("b", Resource.bufferRes c2ceNewBuf) ∈ c2ceResult.createdLog ∧
    jget (c2ceResult.feedbackBuffers.get 0) "b" =
      some (BufValue.buf c2ceNewBuf) ∧
    c2ceNewBuf ≠ bufB := by decide

theorem updateElementIDBuffer_active (s : TransformState) (ec : Nat)
    (h : ¬(s.hasSourceTextures = false ∧ s.targetTextureVarying = none)) :
    ∃ nb, (Transform.updateElementIDBuffer s ec).elementIDBuffer = some nb ∧
      nb.contents = List.range ec := by
  unfold Transform.updateElementIDBuffer
  rw [if_neg h]
  dsimp only
  cases heb : s.elementIDBuffer with
  | none =>
    obtain ⟨res, des, hc⟩ := createNewBuffer_shape s "elementIDBuffer"
      { data := some (List.range ec), accessor := some { size := 1 } }
    rw [hc]
    exact ⟨_, rfl, rfl⟩
  | some b =>
    exact ⟨_, rfl, rfl⟩

theorem setupBuffers_shape (s : TransformState) (props : TransformProps)
    (sB : TransformState) (h : Transform.setupBuffers s props = some sB) :
    ∃ fm sb fb res des log nid ext,
      s.nextId ≤ nid ∧ log = s.createdLog ++ ext ∧
      sB = { s with
        feedbackMap := fm
        sourceBuffers := sb
        feedbackBuffers := fb
        resources := res
        destroyed := des
        createdLog := log
        nextId := nid } := by
  rw [setupBuffers_eq] at h
  split at h
  · split at h
    · cases h
    · rename_i sC heqC
      rw [setupBuffersPre_shape] at heqC
      obtain ⟨fbt, res, des, log, nid, ext, hn, hlog, hsC⟩ :=
        createFeedbackBuffers_shape _ _ _ heqC
      obtain ⟨sbX, fbX, hsB⟩ := setupSwapBuffers_shape sC sB h
      rw [hsC] at hsB
      dsimp only at hn hlog
      exact ⟨_, sbX, fbX, res, des, log, nid, ext, hn, hlog, by rw [hsB]⟩
  · cases h

theorem update_shape (s : TransformState) (props : TransformProps)
    (s' : TransformState) (h : Transform.update s props = some s') :
    ∃ ec eib fm sb fb tfs swpT srcT hasT tgtT refn fbs res des log nid,
      s.nextId ≤ nid ∧
      ec = (Transform.setElementCount s props).elementCount ∧
      eib = (Transform.setElementCount s props).elementIDBuffer ∧
      s' = { s with
        elementCount := ec
        elementIDBuffer := eib
        feedbackMap := fm
        sourceBuffers := sb
        feedbackBuffers := fb
        transformFeedbacks := tfs
        swapTexture := swpT
        sourceTextures := srcT
        hasSourceTextures := hasT
        targetTextures := tgtT
        targetRefTexName := refn
        framebuffers := fbs
        resources := res
        destroyed := des
        createdLog := log
        nextId := nid } := by
  obtain ⟨sB, hB, hT⟩ := update_decomp s props s' h
  obtain ⟨ecE, eibE, resE, desE, logE, nidE, hnE, hsE⟩ := setElementCount_shape s props
  rw [hsE] at hB
  obtain ⟨fm, sb, fb, resB, desB, logB, nidB, extB, hnB, hlogB, hsB⟩ :=
    setupBuffers_shape _ props sB hB
  obtain ⟨tfs, nidT, hnT, hTF⟩ := setupTransformFeedback_shape sB
  rw [hTF] at hT
  obtain ⟨swpT, srcT, hasT, tgtT, refn, fbs, resT, desT, logT, nidT2, extT,
    hnT2, hlogT, hs'⟩ := setupTextures_shape _ props s' hT
  rw [hsB] at hs' hnT
  dsimp only at hnB hnT hnT2 hs'
  refine ⟨ecE, eibE, fm, sb, fb, tfs, swpT, srcT, hasT, tgtT, refn, fbs,
    resT, desT, logT, nidT2, ?_, by rw [hsE], by rw [hsE], hs'⟩
  calc s.nextId ≤ nidE := hnE
    _ ≤ nidB := hnB
    _ ≤ nidT := hnT
    _ ≤ nidT2 := hnT2

/-- C4 (amended): with texture-backed input or output, raising the element
count from e1 to e2 > e1 regenerates the element-index buffer to contents
0..e2-1, and lowering it to e3 < e1 stores the count without touching the
buffer, whose first e3 entries remain 0..e3-1. Regeneration triggers
whenever the new count exceeds the currently stored count, not only when
it grows past the previous build. -/
theorem c4_element_count_index_buffer :
    (∀ (s : TransformState) (props : TransformProps) (s' : TransformState) (e2 : Nat),
      ¬(s.hasSourceTextures = false ∧ s.targetTextureVarying = none) →
      props.elementCount = some e2 →
      s.elementCount < e2 →
      Transform.update s props = some s' →
      s'.elementCount = e2 ∧
      ∃ nb, s'.elementIDBuffer = some nb ∧ nb.contents = List.range e2) ∧
    (∀ (s : TransformState) (props : TransformProps) (s' : TransformState) (e3 : Nat),
      props.elementCount = some e3 →
      e3 < s.elementCount →
      Transform.update s props = some s' →
      s'.elementCount = e3 ∧
      s'.elementIDBuffer = s.elementIDBuffer ∧
      ∀ b e1, s.elementIDBuffer = some b → b.contents = List.range e1 → e3 ≤ e1 →
        b.contents.take e3 = List.range e3) := by
  constructor
  · intro s props s' e2 hact hec hlt hupd
    obtain ⟨ec, eib, fm, sb, fb, tfs, swpT, srcT, hasT, tgtT, refn, fbs,
      res, des, log, nid, hn, hece, heibe, hs'⟩ := update_shape s props s' hupd
    have hsec : Transform.setElementCount s props =
        { Transform.updateElementIDBuffer s e2 with elementCount := e2 } := by
      unfold Transform.setElementCount
      rw [hec]
      dsimp only
      rw [if_neg (by omega), if_pos hlt]
    rw [hsec] at hece heibe
    obtain ⟨nb, hnb, hcont⟩ := updateElementIDBuffer_active s e2 hact
    constructor
    · rw [hs']
      exact hece
    · refine ⟨nb, ?_, hcont⟩
      rw [hs']
      show eib = some nb
      rw [heibe]
      exact hnb
  · intro s props s' e3 hec hlt hupd
    obtain ⟨ec, eib, fm, sb, fb, tfs, swpT, srcT, hasT, tgtT, refn, fbs,
      res, des, log, nid, hn, hece, heibe, hs'⟩ := update_shape s props s' hupd
    have hsec : Transform.setElementCount s props = { s with elementCount := e3 } := by
      unfold Transform.setElementCount
      rw [hec]
      dsimp only
      rw [if_neg (by omega), if_neg (by omega)]
    rw [hsec] at hece heibe
    refine ⟨by rw [hs']; exact hece, by rw [hs']; exact heibe, ?_⟩
    intro b e1 hb hcont hle
    rw [hcont, List.take_range, Nat.min_eq_left hle]

/-- Witness for C4: growing 10 to 12 rebuilds the index buffer, shrinking
to 5 leaves it untouched. -/
theorem c4_witness :
    (¬(c4State.hasSourceTextures = false ∧ c4State.targetTextureVarying = none) ∧
      c4State.elementCount < 12 ∧
      Transform.update c4State { elementCount := some 12 } = some c4GrowResult ∧
      c4GrowResult.elementCount = 12 ∧
      (∃ nb, c4GrowResult.elementIDBuffer = some nb ∧
        nb.contents = List.range 12)) ∧
    (2 < c4State.elementCount ∧
      Transform.update c4State { elementCount := some 2 } = some c4ShrinkResult ∧
      c4ShrinkResult.elementCount = 2 ∧
      c4ShrinkResult.elementIDBuffer = c4State.elementIDBuffer ∧
      c4Eib.contents.take 2 = List.range 2) := by
  constructor
  · refine ⟨by decide, by decide, by decide, ?_, ?_⟩
    · exact (c4_element_count_index_buffer.1 c4State { elementCount := some 12 }
        c4GrowResult 12 (by decide) (by decide) (by decide) (by decide)).1
    · exact (c4_element_count_index_buffer.1 c4State { elementCount := some 12 }
        c4GrowResult 12 (by decide) (by decide) (by decide) (by decide)).2
  · refine ⟨by decide, by decide, ?_, ?_, ?_⟩
    · exact (c4_element_count_index_buffer.2 c4State { elementCount := some 2 }
        c4ShrinkResult 2 (by decide) (by decide) (by decide)).1
    · exact (c4_element_count_index_buffer.2 c4State { elementCount := some 2 }
        c4ShrinkResult 2 (by decide) (by decide) (by decide)).2.1
    · exact (c4_element_count_index_buffer.2 c4State { elementCount := some 2 }
        c4ShrinkResult 2 (by decide) (by decide) (by decide)).2.2
        c4Eib 10 (by decide) (by decide) (by decide)

/-- Counterexample to the unqualified C4: after building at count 10 and
shrinking to 3, raising the count to 5 (below the previous build of 10)
still regenerates the element-index buffer to 0..4. -/
theorem c4_counterexample :
    c4State.elementCount = 10 ∧
    (c4State.elementIDBuffer.map Buffer.contents) = some (List.range 10) ∧
    Transform.update c4State { elementCount := some 3 } = some c4ceMid ∧
    c4ceMid.elementIDBuffer = c4State.elementIDBuffer ∧
    c4ceMid.elementCount = 3 ∧
    Transform.update c4ceMid { elementCount := some 5 } = some c4ceFinal ∧
    (c4ceFinal.elementIDBuffer.map Buffer.contents) = some (List.range 5) ∧
    List.range 5 ≠ List.range 10 := by decide

theorem setupSwapTextures_eq_active (sb : TransformState) (tn : String)
    (v : String) (hsw : sb.swapTexture = some tn)
    (httv : sb.targetTextureVarying = some v) :
    Transform.setupSwapTextures sb =
      { sb with
        sourceTextures := sb.sourceTextures.set ((sb.currentIndex + 1) % 2)
          (tset (tassign (sb.sourceTextures.get ((sb.currentIndex + 1) % 2))
              (sb.sourceTextures.get sb.currentIndex)) tn
            (sb.targetTextures.get sb.currentIndex))
        targetTextures := sb.targetTextures.set ((sb.currentIndex + 1) % 2)
          (jget ((sb.sourceTextures.set ((sb.currentIndex + 1) % 2)
              (tset (tassign (sb.sourceTextures.get ((sb.currentIndex + 1) % 2))
                  (sb.sourceTextures.get sb.currentIndex)) tn
                (sb.targetTextures.get sb.currentIndex))).get sb.currentIndex) tn) } := by
  unfold Transform.setupSwapTextures
  rw [hsw, httv]

theorem setupTexturesFinish_swap_wiring (sb : TransformState) (tt : Option TexOrRef)
    (s' : TransformState) (tn : String) (v : String)
    (hidx : sb.currentIndex < 2)
    (hsw : sb.swapTexture = some tn)
    (httv : sb.targetTextureVarying = some v)
    (h : Transform.setupTexturesFinish sb tt = some s') :
    jget (s'.sourceTextures.get ((sb.currentIndex + 1) % 2)) tn =
      s'.targetTextures.get sb.currentIndex ∧
    s'.targetTextures.get ((sb.currentIndex + 1) % 2) =
      jget (s'.sourceTextures.get sb.currentIndex) tn := by
  have hnext : (sb.currentIndex + 1) % 2 < 2 := by omega
  have hne : sb.currentIndex ≠ (sb.currentIndex + 1) % 2 :=
    fun e => next_ne_cur sb.currentIndex hidx e.symm
  unfold Transform.setupTexturesFinish at h
  rw [setupSwapTextures_eq_active sb tn v hsw httv] at h
  have hcore :
      jget (((Transform.setupSwapTextures sb).sourceTextures).get
          ((sb.currentIndex + 1) % 2)) tn =
        (Transform.setupSwapTextures sb).targetTextures.get sb.currentIndex ∧
      (Transform.setupSwapTextures sb).targetTextures.get ((sb.currentIndex + 1) % 2) =
        jget ((Transform.setupSwapTextures sb).sourceTextures.get sb.currentIndex) tn := by
    rw [setupSwapTextures_eq_active sb tn v hsw httv]
    dsimp only
    constructor
    · rw [GenPair.get_set_same, jget_tset_self,
        GenPair.get_set_other _ _ _ _ hnext hidx hne]
    · rw [GenPair.get_set_same]
  rw [setupSwapTextures_eq_active sb tn v hsw httv] at hcore
  split at h
  · obtain ⟨fbs2, nid2, hn2, hfb2⟩ := setupFramebuffers_shape _ _ h
    rw [hfb2]
    exact hcore
  · cases h
    exact hcore

theorem setupTexturesCore_swap_wiring (sb : TransformState) (props : TransformProps)
    (s' : TransformState) (tn : String) (v : String)
    (hidx : sb.currentIndex < 2)
    (hsw : sb.swapTexture = some tn)
    (httv : sb.targetTextureVarying = some v)
    (h : Transform.setupTexturesCore sb props = some s') :
    jget (s'.sourceTextures.get ((sb.currentIndex + 1) % 2)) tn =
      s'.targetTextures.get sb.currentIndex ∧
    s'.targetTextures.get ((sb.currentIndex + 1) % 2) =
      jget (s'.sourceTextures.get sb.currentIndex) tn := by
  unfold Transform.setupTexturesCore at h
  split at h
  · cases h
  · dsimp only at h
    split at h
    · cases h
    · rename_i tt hres
      split at h
      · cases h
      · rename_i sB hbt
        rw [setupTexturesAssign_shape] at hbt
        obtain ⟨tgtT, refn, res, des, log, nid, ext, hn, hlog, hsB⟩ :=
          setupTexturesBuild_shape _ _ _ hbt
        have hswB : sB.swapTexture = some tn := by rw [hsB]; exact hsw
        have httvB : sB.targetTextureVarying = some v := by rw [hsB]; exact httv
        have hidxB : sB.currentIndex < 2 := by rw [hsB]; exact hidx
        have hw := setupTexturesFinish_swap_wiring sB tt s' tn v hidxB hswB httvB h
        have hcurB : sB.currentIndex = sb.currentIndex := by rw [hsB]
        rw [hcurB] at hw
        exact hw

theorem setupTextures_swap_wiring (s : TransformState) (props : TransformProps)
    (s' : TransformState) (tn : String) (v : String)
    (hidx : s.currentIndex < 2)
    (hsw : s'.swapTexture = some tn)
    (httv : s.targetTextureVarying = some v)
    (h : Transform.setupTextures s props = some s') :
    jget (s'.sourceTextures.get ((s.currentIndex + 1) % 2)) tn =
      s'.targetTextures.get s.currentIndex ∧
    s'.targetTextures.get ((s.currentIndex + 1) % 2) =
      jget (s'.sourceTextures.get s.currentIndex) tn := by
  unfold Transform.setupTextures at h
  cases hpsw : props.swapTexture with
  | some n =>
    rw [hpsw] at h
    dsimp only at h
    have hswp : ({ s with swapTexture := some n } : TransformState).swapTexture =
        some tn := by
      obtain ⟨srcT, hasT, tgtT, refn, fbs, res, des, log, nid, ext, hn, hlog, hs'⟩ :=
        setupTexturesCore_shape _ props s' h
      rw [hs'] at hsw
      exact hsw
    exact setupTexturesCore_swap_wiring { s with swapTexture := some n } props s'
      tn v hidx hswp httv h
  | none =>
    rw [hpsw] at h
    dsimp only at h
    have hswp : s.swapTexture = some tn := by
      obtain ⟨srcT, hasT, tgtT, refn, fbs, res, des, log, nid, ext, hn, hlog, hs'⟩ :=
        setupTexturesCore_shape _ props s' h
      rw [hs'] at hsw
      exact hsw
    exact setupTexturesCore_swap_wiring s props s' tn v hidx hswp httv h

theorem run_shape (s : TransformState) (opts : RunOpts)
    (p : TransformState × RunEffects) (h : Transform.run s opts = some p) :
    p.1 = s ∨
    ∃ X, p.1 = { s with sourceTextures := s.sourceTextures.set s.currentIndex X } := by
  unfold Transform.run at h
  split at h
  · dsimp only at h
    split at h
    · cases h
    · rename_i s1 heq
      unfold Transform.setSourceTextureParameters at heq
      dsimp only at heq
      split at heq
      · cases heq
        split at h
        · split at h
          · cases h
          · cases h
            exact Or.inr ⟨_, rfl⟩
        · cases h
          exact Or.inr ⟨_, rfl⟩
      · cases heq
  · dsimp only at h
    split at h
    · split at h
      · cases h
      · cases h
        exact Or.inl rfl
    · cases h
      exact Or.inl rfl

/-- C3: when a swap-texture name is configured together with a texture
output, a configuration call leaves the other generation's source-texture
entry under that name equal to the current generation's target texture and
the other generation's target texture equal to the current generation's
source texture under that name; after a run and one swap, the just-rendered
target is the new current generation's source under the name and the prior
source is the new target. -/
theorem c3_swap_texture_cross_generation (s : TransformState)
    (props : TransformProps) (s' : TransformState) (tn v : String)
    (hidx : s.currentIndex < 2)
    (hupd : Transform.update s props = some s')
    (hsw : s'.swapTexture = some tn)
    (httv : s.targetTextureVarying = some v) :
    jget (s'.sourceTextures.get ((s.currentIndex + 1) % 2)) tn =
      s'.targetTextures.get s.currentIndex ∧
    s'.targetTextures.get ((s.currentIndex + 1) % 2) =
      jget (s'.sourceTextures.get s.currentIndex) tn ∧
    ∀ opts p s3, Transform.run s' opts = some p → Transform.swap p.1 = some s3 →
      s3.currentIndex = (s.currentIndex + 1) % 2 ∧
      jget (s3.sourceTextures.get s3.currentIndex) tn =
        s'.targetTextures.get s.currentIndex ∧
      s3.targetTextures.get s3.currentIndex =
        jget (s'.sourceTextures.get s.currentIndex) tn := by
  obtain ⟨sB, hB, hT⟩ := update_decomp s props s' hupd
  obtain ⟨ecE, eibE, resE, desE, logE, nidE, hnE, hsE⟩ := setElementCount_shape s props
  rw [hsE] at hB
  obtain ⟨fm, sb, fb, resB, desB, logB, nidB, extB, hnB, hlogB, hsB⟩ :=
    setupBuffers_shape _ props sB hB
  obtain ⟨tfs, nidT, hnT, hTF⟩ := setupTransformFeedback_shape sB
  rw [hTF] at hT
  have hciB : sB.currentIndex = s.currentIndex := by rw [hsB]
  have hidxR : ({ sB with transformFeedbacks := tfs, nextId := nidT } :
      TransformState).currentIndex < 2 := by
    show sB.currentIndex < 2
    rw [hciB]
    exact hidx
  have httvR : ({ sB with transformFeedbacks := tfs, nextId := nidT } :
      TransformState).targetTextureVarying = some v := by
    show sB.targetTextureVarying = some v
    rw [hsB]
    exact httv
  have hw := setupTextures_swap_wiring
    { sB with transformFeedbacks := tfs, nextId := nidT } props s' tn v
    hidxR hsw httvR hT
  have hw1 : jget (s'.sourceTextures.get ((s.currentIndex + 1) % 2)) tn =
      s'.targetTextures.get s.currentIndex := by
    rw [← hciB]
    exact hw.1
  have hw2 : s'.targetTextures.get ((s.currentIndex + 1) % 2) =
      jget (s'.sourceTextures.get s.currentIndex) tn := by
    rw [← hciB]
    exact hw.2
  have hci : s'.currentIndex = s.currentIndex := by
    obtain ⟨swpT, srcT, hasT, tgtT, refn, fbs, resT, desT, logT, nidT2, extT,
      hnT2, hlogT, hs'⟩ := setupTextures_shape _ props s' hT
    rw [hs']
    show sB.currentIndex = s.currentIndex
    exact hciB
  refine ⟨hw1, hw2, ?_⟩
  intro opts p s3 hrun hswp
  unfold Transform.swap at hswp
  split at hswp
  · cases hswp
    have hpc : p.1.currentIndex = s.currentIndex := by
      rcases run_shape s' opts p hrun with hp | ⟨X, hp⟩ <;> rw [hp] <;> exact hci
    have hidx' : s'.currentIndex < 2 := by rw [hci]; exact hidx
    have hnext : (s'.currentIndex + 1) % 2 < 2 := by omega
    have hne : (s'.currentIndex + 1) % 2 ≠ s'.currentIndex := by omega
    have hsrc3 : p.1.sourceTextures.get ((s.currentIndex + 1) % 2) =
        s'.sourceTextures.get ((s.currentIndex + 1) % 2) := by
      rcases run_shape s' opts p hrun with hp | ⟨X, hp⟩
      · rw [hp]
      · rw [hp]
        show (s'.sourceTextures.set s'.currentIndex X).get ((s.currentIndex + 1) % 2) =
          s'.sourceTextures.get ((s.currentIndex + 1) % 2)
        rw [hci]
        exact GenPair.get_set_other _ _ _ _ hidx (by omega) (by omega)
    have htgt3 : p.1.targetTextures = s'.targetTextures := by
      rcases run_shape s' opts p hrun with hp | ⟨X, hp⟩ <;> rw [hp]
    refine ⟨by rw [hpc], ?_, ?_⟩
    · show jget (p.1.sourceTextures.get ((p.1.currentIndex + 1) % 2)) tn =
        s'.targetTextures.get s.currentIndex
      rw [hpc, hsrc3]
      exact hw1
    · show p.1.targetTextures.get ((p.1.currentIndex + 1) % 2) =
        jget (s'.sourceTextures.get s.currentIndex) tn
      rw [hpc, htgt3]
      exact hw2
  · cases hswp

/-- Witness for C3 at a concrete swap-texture configuration, run and
swap. -/
theorem c3_witness :
    c3State.currentIndex < 2 ∧
    Transform.update c3State c3Props = some c3Result ∧
    c3Result.swapTexture = some "t" ∧
    c3State.targetTextureVarying = some "out" ∧
    jget (c3Result.sourceTextures.get ((c3State.currentIndex + 1) % 2)) "t" =
      c3Result.targetTextures.get c3State.currentIndex ∧
    c3Result.targetTextures.get ((c3State.currentIndex + 1) % 2) =
      jget (c3Result.sourceTextures.get c3State.currentIndex) "t" ∧
    c3Swapped.currentIndex = (c3State.currentIndex + 1) % 2 ∧
    jget (c3Swapped.sourceTextures.get c3Swapped.currentIndex) "t" =
      c3Result.targetTextures.get c3State.currentIndex ∧
    c3Swapped.targetTextures.get c3Swapped.currentIndex =
      jget (c3Result.sourceTextures.get c3State.currentIndex) "t" := by
  have h := c3_swap_texture_cross_generation c3State c3Props c3Result "t" "out"
    (by decide) (by decide) (by decide) (by decide)
  have h3 := h.2.2 {} c3RunPair c3Swapped (by decide) (by decide)
  exact ⟨by decide, by decide, by decide, by decide, h.1, h.2.1,
    h3.1, h3.2.1, h3.2.2⟩

/-- C9: reassigning a resource-registry name to a newly created owned
resource (a created buffer, or the cloned target texture) first destroys
the previously registered resource under that name, and installs the
replacement in the registry; with no prior entry nothing is destroyed. -/
theorem c9_replaced_resources_destroyed :
    (∀ (s : TransformState) (name : String) (opts : Transform.BufferOpts),
      (∀ r, tget s.resources name = some r →
        (Transform.createNewBuffer s name opts).1.destroyed =
          s.destroyed ++ [r.rid]) ∧
      (tget s.resources name = none →
        (Transform.createNewBuffer s name opts).1.destroyed = s.destroyed) ∧
      tget (Transform.createNewBuffer s name opts).1.resources name =
        some (Resource.bufferRes (Transform.createNewBuffer s name opts).2)) ∧
    (∀ (s : TransformState) (n : String) (i : Nat) (s' : TransformState)
        (tex : Texture),
      Transform.buildTargetTexture s (TexOrRef.refName n) i = some (s', tex) →
      (∀ r, tget s.resources ("target-texture-" ++ toString i) = some r →
        s'.destroyed = s.destroyed ++ [r.rid]) ∧
      (tget s.resources ("target-texture-" ++ toString i) = none →
        s'.destroyed = s.destroyed) ∧
      tget s'.resources ("target-texture-" ++ toString i) =
        some (Resource.textureRes tex)) := by
  constructor
  · intro s name opts
    refine ⟨?_, ?_, ?_⟩
    · intro r hr
      unfold Transform.createNewBuffer
      dsimp only
      simp only [hr]
    · intro hr
      unfold Transform.createNewBuffer
      dsimp only
      simp only [hr]
    · unfold Transform.createNewBuffer
      dsimp only
      split
      · exact tget_tset_self _ _ _
      · exact tget_tset_self _ _ _
  · intro s n i s' tex h
    unfold Transform.buildTargetTexture at h
    dsimp only at h
    split at h
    · cases h
    · rename_i refT href
      split at h <;> rename_i hres
      · cases h
        refine ⟨?_, ?_, tget_tset_self _ _ _⟩
        · intro r hr
          rw [hres] at hr
          cases hr
          rfl
        · intro hr
          rw [hres] at hr
          cases hr
      · cases h
        refine ⟨?_, ?_, tget_tset_self _ _ _⟩
        · intro r hr
          rw [hres] at hr
          cases hr
        · intro hr
          rfl

/-- Witness for C9: replacing a tracked buffer and a tracked target
texture destroys the prior resource of that name. -/
theorem c9_witness :
    tget c9BufState.resources "elementIDBuffer" =
      some (Resource.bufferRes bufA) ∧
    (Transform.createNewBuffer c9BufState "elementIDBuffer" c9Opts).1.destroyed =
      c9BufState.destroyed ++ [(Resource.bufferRes bufA).rid] ∧
    tget (Transform.createNewBuffer c9BufState "elementIDBuffer"
        c9Opts).1.resources "elementIDBuffer" =
      some (Resource.bufferRes
        (Transform.createNewBuffer c9BufState "elementIDBuffer" c9Opts).2) ∧
    Transform.buildTargetTexture c9TexState (TexOrRef.refName "t") 0 =
      some (c9TexPair.1, c9TexPair.2) ∧
    tget c9TexState.resources ("target-texture-" ++ toString 0) =
      some (Resource.textureRes texT) ∧
    c9TexPair.1.destroyed =
      c9TexState.destroyed ++ [(Resource.textureRes texT).rid] ∧
    tget c9TexPair.1.resources ("target-texture-" ++ toString 0) =
      some (Resource.textureRes c9TexPair.2) := by
  have h1 := c9_replaced_resources_destroyed.1 c9BufState "elementIDBuffer" c9Opts
  have h2 := c9_replaced_resources_destroyed.2 c9TexState "t" 0 c9TexPair.1
    c9TexPair.2 (by decide)
  exact ⟨by decide, h1.1 (Resource.bufferRes bufA) (by decide), h1.2.2,
    by decide, by decide, h2.1 (Resource.textureRes texT) (by decide), h2.2.2⟩

theorem packPixels_chunk (cc : Nat) (c rest : List Nat) (hcc : cc ≤ 4)
    (hlen : c.length = 4) :
    Transform.packPixels cc (c ++ rest) =
      c.take cc ++ Transform.packPixels cc rest := by
  match c, hlen with
  | [a, b, d, e], _ =>
    show Transform.packPixels cc (a :: b :: d :: e :: rest) = _
    rw [Transform.packPixels]
    interval_cases cc <;> simp

theorem packPixels_length_mul (cc : Nat) (hcc : cc ≤ 4) :
    ∀ (n : Nat) (pixels : List Nat), pixels.length = 4 * n →
      (Transform.packPixels cc pixels).length = n * cc := by
  intro n
  induction n with
  | zero =>
    intro pixels hl
    have : pixels = [] := List.eq_nil_of_length_eq_zero hl
    subst this
    rw [Transform.packPixels]
    simp
  | succ k ih =>
    intro pixels hl
    have hsplit : pixels = pixels.take 4 ++ pixels.drop 4 :=
      (List.take_append_drop 4 pixels).symm
    have ht : (pixels.take 4).length = 4 := by
      rw [List.length_take]
      omega
    have hd : (pixels.drop 4).length = 4 * k := by
      rw [List.length_drop]
      omega
    rw [hsplit, packPixels_chunk cc _ _ hcc ht]
    rw [List.length_append, List.length_take, ht, ih _ hd,
      Nat.min_eq_left hcc]
    ring

/-- C6: getData returns the bound feedback buffer's contents for a bound
varying name; an unbound name different from the texture-output name is
fatal; an absent name, or the texture-output name when unbound, reads the
current generation's render-target pixels, repacked when packed is set by
keeping the first channelCount of every 4 channels where channelCount is
implied by the target texture type, yielding length
pixels.length * channelCount / 4. -/
theorem c6_getData_routing_and_packing :
    (∀ (s : TransformState) (n : String) (packed : Bool) (b : Buffer),
      jget (s.feedbackBuffers.get s.currentIndex) n = some (BufValue.buf b) →
      Transform.getData s (some n) packed = some b.contents) ∧
    (∀ (s : TransformState) (n : String) (packed : Bool),
      jget (s.feedbackBuffers.get s.currentIndex) n = none →
      some n ≠ s.targetTextureVarying →
      Transform.getData s (some n) packed = none) ∧
    (∀ (s : TransformState) (fb : Framebuffer),
      s.framebuffers.get s.currentIndex = some fb →
      Transform.getData s none false = some fb.pixels ∧
      Transform.getData s none true =
        some (Transform.packPixels
          (Transform.typeToChannelCount s.targetTextureType) fb.pixels)) ∧
    (∀ (s : TransformState) (n : String) (fb : Framebuffer),
      jget (s.feedbackBuffers.get s.currentIndex) n = none →
      s.targetTextureVarying = some n →
      s.framebuffers.get s.currentIndex = some fb →
      Transform.getData s (some n) false = some fb.pixels ∧
      Transform.getData s (some n) true =
        some (Transform.packPixels
          (Transform.typeToChannelCount s.targetTextureType) fb.pixels)) ∧
    (∀ (cc : Nat) (c rest : List Nat), cc ≤ 4 → c.length = 4 →
      Transform.packPixels cc (c ++ rest) =
        c.take cc ++ Transform.packPixels cc rest) ∧
    (∀ (cc : Nat) (pixels : List Nat), cc ≤ 4 → pixels.length % 4 = 0 →
      (Transform.packPixels cc pixels).length = pixels.length * cc / 4) := by
  refine ⟨?_, ?_, ?_, ?_, ?_, ?_⟩
  · intro s n packed b hb
    unfold Transform.getData Transform.getBuffer
    simp only [hb]
  · intro s n packed hn hne
    unfold Transform.getData Transform.getBuffer
    simp only [hn]
    rw [if_pos ⟨rfl, hne⟩]
  · intro s fb hfb
    constructor
    · unfold Transform.getData Transform.getBuffer
      dsimp only
      rw [if_neg (by simp)]
      simp only [hfb]
      rw [if_pos trivial]
    · unfold Transform.getData Transform.getBuffer
      dsimp only
      rw [if_neg (by simp)]
      simp only [hfb]
      rw [if_neg (by simp)]
  · intro s n fb hn httv hfb
    constructor
    · unfold Transform.getData Transform.getBuffer
      simp only [hn]
      rw [if_neg (fun h => h.2 httv.symm)]
      simp only [hfb]
      rw [if_pos trivial]
    · unfold Transform.getData Transform.getBuffer
      simp only [hn]
      rw [if_neg (fun h => h.2 httv.symm)]
      simp only [hfb]
      rw [if_neg (by simp)]
  · exact packPixels_chunk
  · intro cc pixels hcc hmod
    obtain ⟨m, hm⟩ : ∃ m, pixels.length = 4 * m := ⟨pixels.length / 4, by omega⟩
    rw [packPixels_length_mul cc hcc m pixels hm, hm, Nat.mul_assoc,
      Nat.mul_div_cancel_left]
    norm_num

/-- Witness for C6 on a concrete state with a bound buffer, a render
target and a two-channel target type. -/
theorem c6_witness :
    jget (c6State.feedbackBuffers.get c6State.currentIndex) "a" =
      some (BufValue.buf bufA) ∧
    Transform.getData c6State (some "a") false = some bufA.contents ∧
    jget (c6State.feedbackBuffers.get c6State.currentIndex) "zzz" = none ∧
    some "zzz" ≠ c6State.targetTextureVarying ∧
    Transform.getData c6State (some "zzz") true = none ∧
    c6State.framebuffers.get c6State.currentIndex = some c6Fb ∧
    Transform.getData c6State none false = some c6Fb.pixels ∧
    Transform.getData c6State none true =
      some (Transform.packPixels
        (Transform.typeToChannelCount c6State.targetTextureType)
        c6Fb.pixels) ∧
    Transform.getData c6State (some "out") false = some c6Fb.pixels ∧
    Transform.packPixels 2 ([1, 2, 3, 4] ++ [5, 6, 7, 8]) =
      [1, 2, 3, 4].take 2 ++ Transform.packPixels 2 [5, 6, 7, 8] ∧
    (Transform.packPixels 2 c6Fb.pixels).length =
      c6Fb.pixels.length * 2 / 4 := by
  have h := c6_getData_routing_and_packing
  refine ⟨by decide, h.1 c6State "a" false bufA (by decide), by decide,
    by decide, h.2.1 c6State "zzz" true (by decide) (by decide), by decide,
    (h.2.2.1 c6State c6Fb (by decide)).1, (h.2.2.1 c6State c6Fb (by decide)).2,
    (h.2.2.2.1 c6State "out" c6Fb (by decide) (by decide) (by decide)).1,
    h.2.2.2.2.1 2 [1, 2, 3, 4] [5, 6, 7, 8] (by decide) (by decide),
    h.2.2.2.2.2 2 c6Fb.pixels (by decide) (by decide)⟩

theorem setSourceTextureParameters_shape (s s1 : TransformState)
    (h : Transform.setSourceTextureParameters s = some s1) :
    ∃ X, s1 = { s with sourceTextures := X } := by
  unfold Transform.setSourceTextureParameters at h
  dsimp only at h
  split at h
  · cases h
    exact ⟨_, rfl⟩
  · cases h

theorem swap_shape (s s' : TransformState) (h : Transform.swap s = some s') :
    s' = { s with currentIndex := (s.currentIndex + 1) % 2 } := by
  unfold Transform.swap at h
  split at h
  · cases h
    rfl
  · cases h

theorem setupTexturesFinish_noTexFb (s : TransformState) (tt : Option TexOrRef)
    (s2 : TransformState) (hrtt : s.renderingToTexture = false)
    (h : Transform.setupTexturesFinish s tt = some s2) :
    s2.framebuffers = s.framebuffers := by
  unfold Transform.setupTexturesFinish at h
  obtain ⟨st2, tt2, hsw⟩ := setupSwapTextures_shape s
  rw [hsw] at h
  split at h
  · unfold Transform.setupFramebuffers at h
    have hc : ({ s with sourceTextures := st2, targetTextures := tt2 } :
        TransformState).renderingToTexture = false := hrtt
    rw [if_pos hc] at h
    cases h
    rfl
  · cases h
    rfl

theorem setupTexturesCore_noTexFb (s : TransformState) (props : TransformProps)
    (s' : TransformState) (hrtt : s.renderingToTexture = false)
    (h : Transform.setupTexturesCore s props = some s') :
    s'.framebuffers = s.framebuffers := by
  unfold Transform.setupTexturesCore at h
  split at h
  · cases h
  · dsimp only at h
    split at h
    · cases h
    · rename_i tt hres
      split at h
      · cases h
      · rename_i sB hbt
        rw [setupTexturesAssign_shape] at hbt
        obtain ⟨tgtT, refn, res, des, log, nid, ext, hn, hlog, hsB⟩ :=
          setupTexturesBuild_shape _ _ _ hbt
        have hrttB : sB.renderingToTexture = false := by rw [hsB]; exact hrtt
        have hfin := setupTexturesFinish_noTexFb sB tt s' hrttB h
        rw [hfin, hsB]

theorem setupTextures_noTexFb (s : TransformState) (props : TransformProps)
    (s' : TransformState) (hrtt : s.renderingToTexture = false)
    (h : Transform.setupTextures s props = some s') :
    s'.framebuffers = s.framebuffers := by
  unfold Transform.setupTextures at h
  cases hpsw : props.swapTexture with
  | some n =>
    rw [hpsw] at h
    dsimp only at h
    exact setupTexturesCore_noTexFb { s with swapTexture := some n } props s'
      hrtt h
  | none =>
    rw [hpsw] at h
    dsimp only at h
    exact setupTexturesCore_noTexFb s props s' hrtt h

theorem update_rtt_fb (s : TransformState) (props : TransformProps)
    (s' : TransformState) (h : Transform.update s props = some s') :
    s'.renderingToTexture = s.renderingToTexture ∧
    (s.renderingToTexture = false → s'.framebuffers = s.framebuffers) := by
  obtain ⟨sB, hB, hT⟩ := update_decomp s props s' h
  obtain ⟨ecE, eibE, resE, desE, logE, nidE, hnE, hsE⟩ := setElementCount_shape s props
  rw [hsE] at hB
  obtain ⟨fm, sb, fb, resB, desB, logB, nidB, extB, hnB, hlogB, hsB⟩ :=
    setupBuffers_shape _ props sB hB
  obtain ⟨tfs, nidT, hnT, hTF⟩ := setupTransformFeedback_shape sB
  rw [hTF] at hT
  constructor
  · obtain ⟨swpT, srcT, hasT, tgtT, refn, fbs, resT, desT, logT, nidT2, extT,
      hnT2, hlogT, hs'⟩ := setupTextures_shape _ props s' hT
    rw [hs']
    show sB.renderingToTexture = s.renderingToTexture
    rw [hsB]
  · intro hrtt
    have hrttR : ({ sB with transformFeedbacks := tfs, nextId := nidT } :
        TransformState).renderingToTexture = false := by
      show sB.renderingToTexture = false
      rw [hsB]
      exact hrtt
    have hfb := setupTextures_noTexFb
      { sB with transformFeedbacks := tfs, nextId := nidT } props s' hrttR hT
    rw [hfb]
    show sB.framebuffers = s.framebuffers
    rw [hsB]

theorem applyOp_inv (s s1 : TransformState) (op : TOp)
    (h : applyOp s op = some s1) :
    s1.renderingToTexture = s.renderingToTexture ∧
    (s.renderingToTexture = false → s1.framebuffers = s.framebuffers) := by
  cases op with
  | upd p => exact update_rtt_fb s p s1 h
  | runOp o =>
    unfold applyOp at h
    obtain ⟨pr, hrun, hp1⟩ := Option.map_eq_some'.mp h
    subst hp1
    rcases run_shape s o pr hrun with hp | ⟨X, hp⟩ <;> rw [hp] <;>
      exact ⟨rfl, fun _ => rfl⟩
  | swp =>
    rw [swap_shape s s1 h]
    exact ⟨rfl, fun _ => rfl⟩

theorem applyOps_inv (ops : List TOp) :
    ∀ (s0 s : TransformState), applyOps s0 ops = some s →
      s.renderingToTexture = s0.renderingToTexture ∧
      (s0.renderingToTexture = false → s.framebuffers = s0.framebuffers) := by
  induction ops with
  | nil =>
    intro s0 s h
    cases h
    exact ⟨rfl, fun _ => rfl⟩
  | cons op rest ih =>
    intro s0 s h
    unfold applyOps at h
    split at h
    · cases h
    · rename_i s1 hop
      obtain ⟨hr1, hf1⟩ := applyOp_inv s0 s1 op hop
      obtain ⟨hr2, hf2⟩ := ih s1 s h
      refine ⟨hr2.trans hr1, fun hrtt => ?_⟩
      rw [hf2 (by rw [hr1]; exact hrtt), hf1 hrtt]

theorem construct_noTexFb (props : TransformProps) (sh : ShaderOut)
    (s0 : TransformState) (h : Transform.construct props sh = some s0)
    (hrtt : s0.renderingToTexture = false) :
    s0.framebuffers = ⟨none, none⟩ := by
  unfold Transform.construct at h
  split at h
  · cases h
  · dsimp only at h
    cases httv : props.targetTextureVarying with
    | some ttv =>
      simp only [httv] at h
      split at h
      · cases h
      · rename_i s2 hB
        split at h
        · cases h
        · rename_i s3 hT
          cases h
          obtain ⟨fm, sb, fb, resB, desB, logB, nidB, extB, hnB, hlogB, hsB⟩ :=
            setupBuffers_shape _ props s2 hB
          have hr2 : s2.renderingToTexture = true := by rw [hsB]
          obtain ⟨swpT, srcT, hasT, tgtT, refn, fbs, resT, desT, logT, nidT2,
            extT, hnT2, hlogT, hs3⟩ := setupTextures_shape _ props s3 hT
          have hr3 : s3.renderingToTexture = true := by rw [hs3]; exact hr2
          obtain ⟨tfs, nidT, hnT, hTF⟩ := setupTransformFeedback_shape
            ({ s3 with targetTextureType := sh.targetTextureType })
          obtain ⟨ecE, eibE, resE, desE, logE, nidE, hnE, hsE⟩ :=
            setElementCount_shape (Transform.setupTransformFeedback
              { s3 with targetTextureType := sh.targetTextureType }) props
          rw [hsE, hTF] at hrtt
          have : s3.renderingToTexture = false := hrtt
          rw [hr3] at this
          cases this
    | none =>
      simp only [httv] at h
      split at h
      · cases h
      · rename_i s2 hB
        split at h
        · cases h
        · rename_i s3 hT
          cases h
          obtain ⟨fm, sb, fb, resB, desB, logB, nidB, extB, hnB, hlogB, hsB⟩ :=
            setupBuffers_shape _ props s2 hB
          have hr2 : s2.renderingToTexture = false := by rw [hsB]; rfl
          have hfb3 := setupTextures_noTexFb s2 props s3 hr2 hT
          obtain ⟨tfs, nidT, hnT, hTF⟩ := setupTransformFeedback_shape
            ({ s3 with targetTextureType := sh.targetTextureType })
          obtain ⟨ecE, eibE, resE, desE, logE, nidE, hnE, hsE⟩ :=
            setElementCount_shape (Transform.setupTransformFeedback
              { s3 with targetTextureType := sh.targetTextureType }) props
          rw [hsE, hTF]
          show s3.framebuffers = ⟨none, none⟩
          rw [hfb3, hsB]
          rfl

/-- C5: when rendering to a texture, run requires the current generation's
render target, keeps rasterization (no discard), binds the target with the
viewport covering its full dimensions, and clears its color contents
unless options.clearRenderTarget is false (default true); otherwise the
output is discarded, no render target is bound or touched, and on every
instance constructed without a texture output getFramebuffer returns
none. -/
theorem c5_run_render_target_routing :
    (∀ (s : TransformState) (opts : RunOpts) (p : TransformState × RunEffects),
      Transform.run s opts = some p → s.renderingToTexture = true →
      ∃ fb, s.framebuffers.get s.currentIndex = some fb ∧
        p.2 = { discard := false, framebuffer := some fb,
                viewport := some [0, 0, fb.width, fb.height],
                cleared := opts.clearRenderTarget.getD true }) ∧
    (∀ (s : TransformState) (opts : RunOpts),
      s.renderingToTexture = true →
      s.framebuffers.get s.currentIndex = none →
      Transform.run s opts = none) ∧
    (∀ (s : TransformState) (opts : RunOpts) (p : TransformState × RunEffects),
      Transform.run s opts = some p → s.renderingToTexture = false →
      p.2 = { discard := true, framebuffer := none, viewport := none,
              cleared := false } ∧
      p.1.framebuffers = s.framebuffers) ∧
    (∀ (props : TransformProps) (sh : ShaderOut) (s0 s : TransformState)
        (ops : List TOp),
      Transform.construct props sh = some s0 → applyOps s0 ops = some s →
      s.renderingToTexture = false →
      s.framebuffers = ⟨none, none⟩ ∧ Transform.getFramebuffer s = none) := by
  refine ⟨?_, ?_, ?_, ?_⟩
  · intro s opts p hrun hrtt
    unfold Transform.run at hrun
    dsimp only at hrun
    split at hrun
    · cases hrun
    · rename_i s1 hin
      have hs1 : s1 = s ∨ ∃ X, s1 = { s with sourceTextures := X } := by
        split at hin
        · exact Or.inr (setSourceTextureParameters_shape s s1 hin)
        · cases hin
          exact Or.inl rfl
      have hr1 : s1.renderingToTexture = true := by
        rcases hs1 with h1 | ⟨X, h1⟩ <;> rw [h1] <;> exact hrtt
      have hf1 : s1.framebuffers = s.framebuffers := by
        rcases hs1 with h1 | ⟨X, h1⟩ <;> rw [h1]
      have hc1 : s1.currentIndex = s.currentIndex := by
        rcases hs1 with h1 | ⟨X, h1⟩ <;> rw [h1]
      rw [if_pos hr1] at hrun
      split at hrun
      · cases hrun
      · rename_i fb hfb
        cases hrun
        refine ⟨fb, ?_, rfl⟩
        rw [← hf1, ← hc1]
        exact hfb
  · intro s opts hrtt hfb
    unfold Transform.run
    dsimp only
    split
    · rfl
    · rename_i s1 hin
      have hs1 : s1 = s ∨ ∃ X, s1 = { s with sourceTextures := X } := by
        split at hin
        · exact Or.inr (setSourceTextureParameters_shape s s1 hin)
        · cases hin
          exact Or.inl rfl
      have hr1 : s1.renderingToTexture = true := by
        rcases hs1 with h1 | ⟨X, h1⟩ <;> rw [h1] <;> exact hrtt
      have hfb1 : s1.framebuffers.get s1.currentIndex = none := by
        rcases hs1 with h1 | ⟨X, h1⟩ <;> rw [h1] <;> exact hfb
      rw [if_pos hr1]
      simp only [hfb1]
  · intro s opts p hrun hrtt
    unfold Transform.run at hrun
    dsimp only at hrun
    split at hrun
    · cases hrun
    · rename_i s1 hin
      have hs1 : s1 = s ∨ ∃ X, s1 = { s with sourceTextures := X } := by
        split at hin
        · exact Or.inr (setSourceTextureParameters_shape s s1 hin)
        · cases hin
          exact Or.inl rfl
      have hr1 : ¬(s1.renderingToTexture = true) := by
        rcases hs1 with h1 | ⟨X, h1⟩ <;> rw [h1] <;> simp [hrtt]
      rw [if_neg hr1] at hrun
      cases hrun
      refine ⟨rfl, ?_⟩
      rcases hs1 with h1 | ⟨X, h1⟩ <;> rw [h1]
  · intro props sh s0 s ops hc ho hrtt
    obtain ⟨hre, hfe⟩ := applyOps_inv ops s0 s ho
    have hr0 : s0.renderingToTexture = false := by rw [← hre]; exact hrtt
    have hfbs : s.framebuffers = ⟨none, none⟩ := by
      rw [hfe hr0]
      exact construct_noTexFb props sh s0 hc hr0
    refine ⟨hfbs, ?_⟩
    unfold Transform.getFramebuffer GenPair.get
    rw [hfbs]
    split <;> rfl

/-- Witness for C5: a texture-routed run, a missing render target, a
discarding run, and a constructed buffer-only instance driven through
run, swap and update. -/
theorem c5_witness :
    Transform.run c5TexState {} = some c5TexPair ∧
    c5TexState.renderingToTexture = true ∧
    (∃ fb, c5TexState.framebuffers.get c5TexState.currentIndex = some fb ∧
      c5TexPair.2 = { discard := false, framebuffer := some fb,
                      viewport := some [0, 0, fb.width, fb.height],
                      cleared := ({} : RunOpts).clearRenderTarget.getD true }) ∧
    Transform.run c5MissState {} = none ∧
    Transform.run initialState {} = some c5NoTexPair ∧
    c5NoTexPair.2 = { discard := true, framebuffer := none, viewport := none,
                      cleared := false } ∧
    c5NoTexPair.1.framebuffers = initialState.framebuffers ∧
    Transform.construct c5CProps c5Sh = some c5S0 ∧
    applyOps c5S0 c5Ops = some c5SFinal ∧
    c5SFinal.renderingToTexture = false ∧
    c5SFinal.framebuffers = ⟨none, none⟩ ∧
    Transform.getFramebuffer c5SFinal = none := by
  have h4 := c5_run_render_target_routing.2.2.2 c5CProps c5Sh c5S0 c5SFinal
    c5Ops (by decide) (by decide) (by decide)
  exact ⟨by decide, by decide,
    c5_run_render_target_routing.1 c5TexState {} c5TexPair (by decide)
      (by decide),
    c5_run_render_target_routing.2.1 c5MissState {} (by decide) (by decide),
    by decide,
    (c5_run_render_target_routing.2.2.1 initialState {} c5NoTexPair
      (by decide) (by decide)).1,
    (c5_run_render_target_routing.2.2.1 initialState {} c5NoTexPair
      (by decide) (by decide)).2,
    by decide, by decide, by decide, h4.1, h4.2⟩
